import Mathlib

/-!
Shallow embedding of the cross-chain portfolio aggregation and analytics core of
the `optimizedefi` repository (TypeScript), together with proofs about it.

Sources embedded:
- the 1inch API client with rate limiting (`OneInchAPIClient` in
  `frontend/lib/api/1inch/client.ts` and the variant with deferred
  initialization in `unnamed/part_009`);
- the token-metadata API with its 1h cache (`TokensAPI`, `unnamed/part_010`);
- the price API with its 60s cache (`PricesAPI`, `unnamed/part_010`);
- the balances API (`BalancesAPI`, `frontend/lib/api/1inch/balances.ts`);
- the portfolio aggregator (`PortfolioService`, `unnamed/part_011`);
- the analytics helpers (`calculateDiversificationScore`, `assessRisk`,
  in `unnamed/part_011` and `unnamed/part_012`).

Modelling conventions:
- JavaScript numbers are modelled as exact rationals (ℚ); timestamps,
  chain ids and raw wei balances as naturals.
- JavaScript exceptions are modelled with `Except`; a `try/catch` in the
  source becomes an explicit `match` on the `Except` value.
- `Map`/plain-object dictionaries are modelled as association lists in
  insertion order (`Object.entries`/`Object.values` iterate string keys in
  insertion order), with `jsMapSet` reproducing `Map.set` replace-or-append
  semantics.
- `Array.prototype.sort` is stable in JS; it is modelled by a stable
  insertion sort.
- In-place mutation of shared token objects (the aggregator mutates
  `allocation` on objects that are simultaneously referenced from
  `chain.tokens` and from the sorted top-tokens array) is modelled by
  updating tokens addressed by their flat index in `chains.flatMap tokens`.
-/

/-- JS `Math.round` on an exact rational: round half toward positive infinity. -/
def jsRound (q : ℚ) : ℤ := ⌊q + 1/2⌋

/-- JS `String.prototype.toLowerCase` on one character, for the ASCII range
used by hex addresses. -/
def charLowerJs (c : Char) : Char :=
  if 65 ≤ c.toNat ∧ c.toNat ≤ 90 then Char.ofNat (c.toNat + 32) else c

/-- JS `String.prototype.toLowerCase` (ASCII range). -/
def toLowerJs (s : String) : String := ⟨s.data.map charLowerJs⟩

/-- Lookup in an association list by string key (models `Map.get` /
property access on a plain object). -/
def alGet {α : Type} (k : String) : List (String × α) → Option α
  | [] => none
  | p :: ps => if p.1 = k then some p.2 else alGet k ps

/-- `Map.has`. -/
def alHas {α : Type} (k : String) (m : List (String × α)) : Bool :=
  (alGet k m).isSome

/-- JS `Map.set`: replace the value in place if the key is present,
otherwise append at the end (insertion order is preserved). -/
def jsMapSet {α : Type} (m : List (String × α)) (k : String) (v : α) :
    List (String × α) :=
  if alHas k m then m.map (fun p => if p.1 = k then (k, v) else p)
  else m ++ [(k, v)]

/-- Stable insert for a descending sort by a rational measure: `x` is placed
before the first element whose measure is not greater than `f x`.  Together
with `sortValDesc` this models the stable JS
`arr.sort((a, b) => b.value - a.value)`. -/
def insertValDesc {α : Type} (f : α → ℚ) (x : α) : List α → List α
  | [] => [x]
  | y :: ys => if f x < f y then y :: insertValDesc f x ys else x :: y :: ys

/-- Stable descending sort by a rational measure. -/
def sortValDesc {α : Type} (f : α → ℚ) : List α → List α
  | [] => []
  | x :: xs => insertValDesc f x (sortValDesc f xs)

/-- Code-unit comparison of strings (JS default sort order for ASCII keys). -/
def charListLtJs : List Char → List Char → Bool
  | [], [] => false
  | [], _ :: _ => true
  | _ :: _, [] => false
  | a :: as, b :: bs =>
    if a.toNat < b.toNat then true
    else if b.toNat < a.toNat then false
    else charListLtJs as bs

/-- Stable insert for the ascending default JS string sort. -/
def insertStrAsc (x : String) : List String → List String
  | [] => [x]
  | y :: ys =>
    if charListLtJs x.data y.data then x :: y :: ys else y :: insertStrAsc x ys

/-- JS `arr.sort()` on an array of strings: stable, ascending by code units. -/
def sortStrAsc : List String → List String
  | [] => []
  | x :: xs => insertStrAsc x (sortStrAsc xs)

/-- Risk classification returned by `assessRisk`. -/
inductive RiskLevel where
  | low
  | medium
  | high
deriving DecidableEq

/-- `PortfolioService.calculateDiversificationScore` (`unnamed/part_011`):
`if (allocations.length === 0) return 0`, then
`hhi = allocations.reduce((sum, a) => sum + Math.pow(a / 100, 2), 0)` and
`return Math.round((1 - hhi) * 100)`. -/
def calculateDiversificationScore (allocations : List ℚ) : ℤ :=
  if allocations.isEmpty then 0
  else
    let hhi := allocations.foldl (fun sum a => sum + (a / 100) ^ 2) 0
    jsRound ((1 - hhi) * 100)

/-- `PortfolioService.assessRisk` (`unnamed/part_011`, also the tail of
`assessRisk` in `unnamed/part_012`). -/
def assessRisk (diversificationScore largestAllocation : ℚ) : RiskLevel :=
  if 70 ≤ diversificationScore ∧ largestAllocation < 40 then .low
  else if 50 ≤ diversificationScore ∨ largestAllocation < 60 then .medium
  else .high

/-- The risk rule exactly as the specification words it: `Low` if
`score ≥ 70` AND `largestAllocationPct < 40`; else `Medium` if `score ≥ 50`
OR `largestAllocationPct < 60`; else `High`. -/
def riskLevelSpec (score largestAllocationPct : ℚ) : RiskLevel :=
  if 70 ≤ score ∧ largestAllocationPct < 40 then .low
  else if 50 ≤ score ∨ largestAllocationPct < 60 then .medium
  else .high

/-- Per-endpoint rate-limit window (`RateLimitState` in the client sources). -/
structure RateLimitState where
  requests : ℕ
  resetTime : ℕ
deriving DecidableEq

/-- `OneInchAPIError` : `{message, statusCode?}` (the `response` payload is
not needed by any claim and is omitted). -/
structure OneInchAPIError where
  message : String
  statusCode : Option ℕ := none
deriving DecidableEq

/-- `MAX_REQUESTS_PER_MINUTE` in both client sources. -/
def MAX_REQUESTS_PER_MINUTE : ℕ := 30

/-- `RATE_LIMIT_WINDOW` (one minute in ms) in both client sources. -/
def RATE_LIMIT_WINDOW : ℕ := 60000

/-- The 429 error thrown by `checkRateLimit`:
`new OneInchAPIError("Rate limit exceeded. Please wait " + waitTime + " seconds.", 429)`
with `waitTime = Math.ceil((state.resetTime - now) / 1000)`. -/
def rateLimitError (waitTime : ℕ) : OneInchAPIError :=
  { message := "Rate limit exceeded. Please wait " ++ toString waitTime ++ " seconds."
    statusCode := some 429 }

/-- The construction-time error thrown (`client.ts`) or recorded
(`part_009`) when no API key is configured. -/
def apiKeyNotConfiguredError : OneInchAPIError :=
  { message := "1inch API key not configured. Please add NEXT_PUBLIC_1INCH_API_KEY to your .env.local file. You can get an API key from https://portal.1inch.dev/"
    statusCode := none }

/-- `OneInchAPIClient.checkRateLimit` (identical in `client.ts` and
`part_009`).  `now` is `Date.now()`; the rate-limit map is threaded
explicitly.  Returns the updated map, or the 429 error (in which case the
map is unchanged, since the JS method throws before mutating). -/
def checkRateLimit (now : ℕ) (endpoint : String)
    (m : List (String × RateLimitState)) :
    Except OneInchAPIError (List (String × RateLimitState)) :=
  match alGet endpoint m with
  | none => .ok (jsMapSet m endpoint ⟨1, now + RATE_LIMIT_WINDOW⟩)
  | some state =>
    if state.resetTime < now then
      .ok (jsMapSet m endpoint ⟨1, now + RATE_LIMIT_WINDOW⟩)
    else if MAX_REQUESTS_PER_MINUTE ≤ state.requests then
      .error (rateLimitError ((state.resetTime - now + 999) / 1000))
    else
      .ok (jsMapSet m endpoint ⟨state.requests + 1, state.resetTime⟩)

/-- Outcome of the `fetch` call inside `request`, as seen by the client:
a 2xx response with parsed JSON, a non-2xx response (with the optional
parsed `errorData.message`), or a transport-level exception. -/
inductive FetchResult (T : Type) where
  | success (data : T)
  | httpFailure (status : ℕ) (errMessage : Option String)
  | transportError (message : String)

/-- Client state: the configured key, the shared rate-limit map, and (only
in the `part_009` variant) the deferred initialization error. -/
structure ClientState where
  apiKey : String
  rateLimitState : List (String × RateLimitState)
  initError : Option OneInchAPIError
deriving DecidableEq

/-- JS `a || b` on strings (first operand wins unless it is falsy). -/
def orElseStr (a b : String) : String := if a = "" then b else a

/-- Constructor of `OneInchAPIClient` in `frontend/lib/api/1inch/client.ts`:
`this.apiKey = apiKey || process.env.NEXT_PUBLIC_1INCH_API_KEY || ""`, and
`if (!this.apiKey) throw new OneInchAPIError(...)`.  A `none` argument
models an absent value. -/
def mkOneInchClient (apiKey envApiKey : Option String) :
    Except OneInchAPIError ClientState :=
  let key := orElseStr (apiKey.getD "") (envApiKey.getD "")
  if key = "" then .error apiKeyNotConfiguredError
  else .ok { apiKey := key, rateLimitState := [], initError := none }

/-- Constructor of `OneInchAPIClient` in `unnamed/part_009`: same key
resolution, but instead of throwing it stores the error in
`this.initError`, to be thrown by `checkInitialization()` on the first
`request`. -/
def mkOneInchClientDeferred (apiKey envApiKey : Option String) : ClientState :=
  let key := orElseStr (apiKey.getD "") (envApiKey.getD "")
  { apiKey := key
    rateLimitState := []
    initError := if key = "" then some apiKeyNotConfiguredError else none }

/-- `OneInchAPIClient.request` (`unnamed/part_009` variant, whose
`checkInitialization()` runs first; in `client.ts` `initError` is always
`none` so the two variants coincide there).  The network is abstracted as
the `fetch` outcome the call would observe.  Returns the result, the
client state after the call, and whether the network call was performed.
Headers are irrelevant to every claim and are omitted. -/
def request {T : Type} (now : ℕ) (endpoint : String) (st : ClientState)
    (fetch : FetchResult T) :
    Except OneInchAPIError T × ClientState × Bool :=
  match st.initError with
  | some e => (.error e, st, false)
  | none =>
    match checkRateLimit now endpoint st.rateLimitState with
    | .error e => (.error e, st, false)
    | .ok m =>
      let st' := { st with rateLimitState := m }
      match fetch with
      | .success data => (.ok data, st', true)
      | .httpFailure status errMessage =>
        (.error { message := errMessage.getD ("HTTP error! status: " ++ toString status)
                  statusCode := some status }, st', true)
      | .transportError msg => (.error { message := msg, statusCode := none }, st', true)

/-- Run a sequence of `checkRateLimit` calls for one endpoint at the given
times, recording which pass; a failing call leaves the map unchanged (the
JS method throws before mutating). -/
def runRateLimitCalls (endpoint : String) :
    List ℕ → List (String × RateLimitState) →
    List Bool × List (String × RateLimitState)
  | [], m => ([], m)
  | t :: ts, m =>
    match checkRateLimit t endpoint m with
    | .ok m' =>
      let r := runRateLimitCalls endpoint ts m'
      (true :: r.1, r.2)
    | .error _ =>
      let r := runRateLimitCalls endpoint ts m
      (false :: r.1, r.2)

/-- `TokenInfo` (`unnamed/part_010`); the optional flags `tags`, `eip2612`,
`isFoT`, `displayedSymbol` are never read by the embedded code paths and
are omitted. -/
structure TokenInfo where
  address : String
  chainId : ℕ
  name : String
  symbol : String
  decimals : ℕ
  logoURI : Option String := none
deriving DecidableEq

/-- `TokenList`: token address → token info, in insertion order. -/
abbrev TokenList := List (String × TokenInfo)

/-- `TokensAPI.CACHE_DURATION` (1 hour in ms). -/
def TOKEN_CACHE_DURATION : ℕ := 3600000

/-- `PricesAPI.CACHE_DURATION` (1 minute in ms). -/
def PRICE_CACHE_DURATION : ℕ := 60000

/-- State of `TokensAPI`: `tokenCache` and `cacheTimestamps`. -/
structure TokensState where
  tokenCache : List (String × TokenList)
  cacheTimestamps : List (String × ℕ)
deriving DecidableEq

/-- `TokensAPI.isCacheValid`: `if (!timestamp) return false` — falsy both
for a missing key and for a stored timestamp of 0 — then
`Date.now() - timestamp < CACHE_DURATION` (computed in ℤ: JS numbers are
signed). -/
def tokensIsCacheValid (now : ℕ) (s : TokensState) (key : String) : Bool :=
  match alGet key s.cacheTimestamps with
  | none => false
  | some timestamp =>
    if timestamp = 0 then false
    else (now : ℤ) - timestamp < (TOKEN_CACHE_DURATION : ℤ)

/-- Cache key `"tokens-" + chainId` used by `TokensAPI.getTokens`. -/
def tokensCacheKey (chainId : ℕ) : String := "tokens-" ++ toString chainId

/-- `TokensAPI.getTokens`: serve from the cache when valid, otherwise fetch
(`fetch` is the outcome the upstream call would produce), cache on success,
and return `{}` on failure (the `catch` branch) without touching the cache.
The returned `Bool` records whether the fetch was invoked. -/
def getTokens (now : ℕ) (chainId : ℕ) (fetch : Except OneInchAPIError TokenList)
    (s : TokensState) : TokenList × TokensState × Bool :=
  let cacheKey := tokensCacheKey chainId
  if tokensIsCacheValid now s cacheKey then
    ((alGet cacheKey s.tokenCache).getD [], s, false)
  else
    match fetch with
    | .ok tokens =>
      (tokens,
       { tokenCache := jsMapSet s.tokenCache cacheKey tokens
         cacheTimestamps := jsMapSet s.cacheTimestamps cacheKey now },
       true)
    | .error _ => ([], s, true)

/-- State of `PricesAPI`: `priceCache` and `cacheTimestamps`.  Price maps
are token address → USD price. -/
structure PricesState where
  priceCache : List (String × List (String × ℚ))
  cacheTimestamps : List (String × ℕ)
deriving DecidableEq

/-- `PricesAPI.isCacheValid` (same shape as the tokens one, including the
falsy-zero timestamp check, 60s TTL). -/
def pricesIsCacheValid (now : ℕ) (s : PricesState) (key : String) : Bool :=
  match alGet key s.cacheTimestamps with
  | none => false
  | some timestamp =>
    if timestamp = 0 then false
    else (now : ℤ) - timestamp < (PRICE_CACHE_DURATION : ℤ)

/-- Cache key

`"prices-" + chainId + "-" + tokenAddresses.sort().join(",") + "-" + currency`

used by `PricesAPI.getTokenPrices`; the currency is its default `"USD"`
everywhere in the embedded call graph. -/
def pricesCacheKey (chainId : ℕ) (tokenAddresses : List String) : String :=
  "prices-" ++ toString chainId ++ "-"
    ++ String.intercalate "," (sortStrAsc tokenAddresses) ++ "-USD"

/-- `PricesAPI.getTokenPrices`: empty address list short-circuits to `{}`;
otherwise serve from cache when valid, fetch and cache on success, return
`{}` on failure without touching the cache.  The `Bool` records whether
the fetch was invoked. -/
def getTokenPrices (now : ℕ) (chainId : ℕ) (tokenAddresses : List String)
    (fetch : Except OneInchAPIError (List (String × ℚ))) (s : PricesState) :
    List (String × ℚ) × PricesState × Bool :=
  if tokenAddresses.isEmpty then ([], s, false)
  else
    let cacheKey := pricesCacheKey chainId tokenAddresses
    if pricesIsCacheValid now s cacheKey then
      ((alGet cacheKey s.priceCache).getD [], s, false)
    else
      match fetch with
      | .ok response =>
        (response,
         { priceCache := jsMapSet s.priceCache cacheKey response
           cacheTimestamps := jsMapSet s.cacheTimestamps cacheKey now },
         true)
      | .error _ => ([], s, true)

/-- Upstream surface seen by the token-resolution and portfolio code.  Each
field is the value an API-layer getter returns at its call site:
`catalog chainId` is what `TokensAPI.getTokens` returns there (the bulk
`TokenList`, or `{}` when that fetch failed — every such value is reachable,
and the TTL state machine behind it is verified separately on `getTokens`);
`custom chainId addressesParam` is the raw upstream response of
`GET /swap/v6.0/{chainId}/custom/tokens?addresses=addressesParam`, an
address-keyed map, or an error; `prices chainId addresses` is what
`PricesAPI.getTokenPrices` returns; `fetchBalances chainId wallet` is the
raw balances response consumed by `BalancesAPI.getBalances`, an error
modelling a throw. -/
structure OneInchEnv where
  fetchBalances : ℕ → String → Except OneInchAPIError (List (String × ℕ))
  catalog : ℕ → TokenList
  custom : ℕ → String → Except OneInchAPIError (List (String × TokenInfo))
  prices : ℕ → List String → List (String × ℚ)

/-- `TokensAPI.getCustomTokenInfo`: query the custom-tokens endpoint with
the `addresses` parameter set to `tokenAddress`, then return
`response[tokenAddress.toLowerCase()] || null`; any error is caught and
becomes `null`. -/
def getCustomTokenInfo (env : OneInchEnv) (chainId : ℕ) (tokenAddress : String) :
    Option TokenInfo :=
  match env.custom chainId tokenAddress with
  | .error _ => none
  | .ok response => alGet (toLowerJs tokenAddress) response

/-- `TokensAPI.getMultipleTokenInfo`: serve each queried address from the
bulk catalog (case-insensitive match on `Object.values(tokens)`), then, for
the addresses still missing, issue ONE `getCustomTokenInfo` call with the
comma-joined missing addresses and `Map.set` its (single, possibly absent)
result. -/
def getMultipleTokenInfo (env : OneInchEnv) (chainId : ℕ)
    (tokenAddresses : List String) : List (String × TokenInfo) :=
  let tokens := env.catalog chainId
  let tokenMap := tokenAddresses.foldl (fun m address =>
    let normalizedAddress := toLowerJs address
    match (tokens.map (·.2)).find? (fun t => toLowerJs t.address = normalizedAddress) with
    | some tokenInfo => jsMapSet m normalizedAddress tokenInfo
    | none => m) []
  let missingAddresses := tokenAddresses.filter
    (fun address => ¬ alHas (toLowerJs address) tokenMap)
  if missingAddresses.isEmpty then tokenMap
  else
    match getCustomTokenInfo env chainId (String.intercalate "," missingAddresses) with
    | some customTokens => jsMapSet tokenMap (toLowerJs customTokens.address) customTokens
    | none => tokenMap

/-- `PortfolioToken` (`unnamed/part_011`).  `allocation` is optional in the
source (`allocation?: number`) and is `undefined` until assigned. -/
structure PortfolioToken where
  address : String
  symbol : String
  name : String
  decimals : ℕ
  balance : ℕ
  balanceFormatted : ℚ
  priceUSD : ℚ
  valueUSD : ℚ
  chainId : ℕ
  chainName : String
  logoURI : Option String := none
  allocation : Option ℚ := none
deriving DecidableEq

/-- `ChainPortfolio` (`unnamed/part_011`).  The `nativeToken` field is
`tokens.find(t => t.address.toLowerCase() === "0xee…ee")` — an alias of an
element of `tokens` — and is not consulted by any claim, so it is omitted
from the record. -/
structure ChainPortfolio where
  chainId : ℕ
  chainName : String
  totalValueUSD : ℚ
  tokens : List PortfolioToken
deriving DecidableEq

/-- `Portfolio` (`unnamed/part_011`); `lastUpdated : Date` is omitted. -/
structure Portfolio where
  address : String
  totalValueUSD : ℚ
  chains : List ChainPortfolio
  topTokens : List PortfolioToken
deriving DecidableEq

/-- `CHAIN_NAMES[chainId] || "Chain " + chainId`. -/
def chainNameOf (chainId : ℕ) : String :=
  match chainId with
  | 1 => "Ethereum"
  | 137 => "Polygon"
  | 10 => "Optimism"
  | 42161 => "Arbitrum"
  | 43114 => "Avalanche"
  | 56 => "BSC"
  | 100 => "Gnosis"
  | 250 => "Fantom"
  | 8453 => "Base"
  | _ => "Chain " ++ toString chainId

/-- `BalancesAPI.getBalances`: the upstream call wrapped in `try/catch`;
the catch logs and returns `{}`. -/
def getBalances (env : OneInchEnv) (chainId : ℕ) (walletAddress : String) :
    List (String × ℕ) :=
  match env.fetchBalances chainId walletAddress with
  | .ok response => response
  | .error _ => []

/-- `BalancesAPI.getMultiChainBalances`: one `getBalances` per chain under
`Promise.allSettled`, keeping fulfilled results.  `getBalances` catches
every exception, so every promise fulfills and each chain contributes one
entry, in input order. -/
def getMultiChainBalances (env : OneInchEnv) (walletAddress : String)
    (chainIds : List ℕ) : List (ℕ × List (String × ℕ)) :=
  chainIds.map (fun chainId => (chainId, getBalances env chainId walletAddress))

/-- `BalancesAPI.filterNonZeroBalances` with its default threshold:
keep entries with `BigInt(balance) > BigInt("1000000")`. -/
def filterNonZeroBalances (balances : List (String × ℕ)) : List (String × ℕ) :=
  balances.filter (fun p => 1000000 < p.2)

/-- `BalancesAPI.getAllNonZeroBalances`: fetch, dust-filter, and drop
chains whose filtered balance map is empty. -/
def getAllNonZeroBalances (env : OneInchEnv) (walletAddress : String)
    (chainIds : List ℕ) : List (ℕ × List (String × ℕ)) :=
  ((getMultiChainBalances env walletAddress chainIds).map
    (fun cb => (cb.1, filterNonZeroBalances cb.2))).filter
    (fun cb => ¬ cb.2.isEmpty)

/-- `PortfolioService.processChainPortfolio`: resolve metadata and prices
for the chain addresses, build a `PortfolioToken` for each balance entry
having BOTH (the accumulated `totalValueUSD` equals the sum of the built
values), sort the token array descending by `valueUSD` (in place), then
set each token allocation relative to the CHAIN total (`0` when the chain
total is not positive). -/
def processChainPortfolio (env : OneInchEnv) (chainId : ℕ)
    (balances : List (String × ℕ)) : ChainPortfolio :=
  let tokenAddresses := balances.map (·.1)
  let tokenInfoMap := getMultipleTokenInfo env chainId tokenAddresses
  let prices := env.prices chainId tokenAddresses
  let tokens : List PortfolioToken := balances.filterMap (fun b =>
    match alGet (toLowerJs b.1) tokenInfoMap, alGet (toLowerJs b.1) prices with
    | some tokenInfo, some price =>
      let balanceFormatted : ℚ := (b.2 : ℚ) / (10 : ℚ) ^ tokenInfo.decimals
      some { address := b.1
             symbol := tokenInfo.symbol
             name := tokenInfo.name
             decimals := tokenInfo.decimals
             balance := b.2
             balanceFormatted := balanceFormatted
             priceUSD := price
             valueUSD := balanceFormatted * price
             chainId := chainId
             chainName := chainNameOf chainId
             logoURI := tokenInfo.logoURI
             allocation := none }
    | _, _ => none)
  let totalValueUSD := (tokens.map (·.valueUSD)).sum
  let sorted := sortValDesc (·.valueUSD) tokens
  { chainId := chainId
    chainName := chainNameOf chainId
    totalValueUSD := totalValueUSD
    tokens := sorted.map (fun t =>
      { t with allocation := some (if 0 < totalValueUSD then t.valueUSD / totalValueUSD * 100 else 0) }) }

/-- The single JS assignment
`token.allocation = totalValue > 0 ? token.valueUSD / totalValue * 100 : 0`
performed by `getTopTokens` on each selected token object. -/
def setTopAllocation (totalValue : ℚ) (t : PortfolioToken) : PortfolioToken :=
  { t with allocation := some (if 0 < totalValue then t.valueUSD / totalValue * 100 else 0) }

/-- `PortfolioService.getTopTokens`: copy the flattened token array
(`[...allTokens]` — a shallow copy sharing the token objects), sort it
descending by value, take the first `limit`, and assign each taken token
its portfolio-relative allocation.  Returns the top-token array and the
flat indices (positions in `allTokens`) of the mutated shared objects. -/
def getTopTokens (allTokens : List PortfolioToken) (totalValue : ℚ) (limit : ℕ) :
    List PortfolioToken × List ℕ :=
  let sorted := sortValDesc (fun p => p.2.valueUSD) allTokens.enum
  let top := sorted.take limit
  let updated := top.map (fun p => (p.1, setTopAllocation totalValue p.2))
  (updated.map (·.2), updated.map (·.1))

/-- Effect of the `getTopTokens` mutations on a token list whose first
element sits at flat index `start`: tokens whose flat index was selected
receive the portfolio-relative allocation. -/
def updateToks (sel : List ℕ) (totalValue : ℚ) : ℕ → List PortfolioToken → List PortfolioToken
  | _, [] => []
  | i, t :: ts =>
    (if i ∈ sel then setTopAllocation totalValue t else t) :: updateToks sel totalValue (i + 1) ts

/-- Effect of the `getTopTokens` mutations on the chain portfolios that
share their token objects with the flattened array. -/
def updateChains (sel : List ℕ) (totalValue : ℚ) : ℕ → List ChainPortfolio → List ChainPortfolio
  | _, [] => []
  | i, c :: cs =>
    { c with tokens := updateToks sel totalValue i c.tokens }
      :: updateChains sel totalValue (i + c.tokens.length) cs

/-- The per-chain portfolios built by `getPortfolio` before the top-token
step: `getAllNonZeroBalances` then `processChainPortfolio` per chain. -/
def chainPortfoliosOf (env : OneInchEnv) (walletAddress : String)
    (chainIds : List ℕ) : List ChainPortfolio :=
  (getAllNonZeroBalances env walletAddress chainIds).map
    (fun cb => processChainPortfolio env cb.1 cb.2)

/-- All tokens of a chain list, flattened in chain order
(`chainPortfolios.flatMap(chain => chain.tokens)`). -/
def flatTokens (chains : List ChainPortfolio) : List PortfolioToken :=
  chains.flatMap (·.tokens)

/-- `PortfolioService.getPortfolio`: fetch and filter balances, process
each surviving chain, sum the chain totals, build the top-10 token view,
and return the portfolio.  Because `getTopTokens` mutates token objects
shared with `chains`, the published chain list is `updateChains` of the
per-chain result. -/
def getPortfolio (env : OneInchEnv) (walletAddress : String)
    (chainIds : List ℕ) : Portfolio :=
  let chainPortfolios := chainPortfoliosOf env walletAddress chainIds
  let totalValueUSD := (chainPortfolios.map (·.totalValueUSD)).sum
  let allTokens := flatTokens chainPortfolios
  let top := getTopTokens allTokens totalValueUSD 10
  { address := walletAddress
    totalValueUSD := totalValueUSD
    chains := updateChains top.2 totalValueUSD 0 chainPortfolios
    topTokens := top.1 }

/-- Sum of `allocationPct` over all holdings across all chains of a
portfolio (`undefined` allocations count as 0, as in `t.allocation || 0`). -/
def sumAllocations (p : Portfolio) : ℚ :=
  ((flatTokens p.chains).map (fun t => t.allocation.getD 0)).sum

/-- Portfolio-wide total as computed inside `getPortfolio`
(`chainPortfolios.reduce((t, c) => t + c.totalValueUSD, 0)`). -/
def portfolioTotal (env : OneInchEnv) (walletAddress : String)
    (chainIds : List ℕ) : ℚ :=
  ((chainPortfoliosOf env walletAddress chainIds).map (·.totalValueUSD)).sum

/-- Flat indices of the token objects mutated by the top-token step of
`getPortfolio`. -/
def topSelection (env : OneInchEnv) (walletAddress : String)
    (chainIds : List ℕ) : List ℕ :=
  (getTopTokens (flatTokens (chainPortfoliosOf env walletAddress chainIds))
    (portfolioTotal env walletAddress chainIds) 10).2

/-- Forget the `allocation` field of a token (used to compare all other
fields at once). -/
def clearAllocation (t : PortfolioToken) : PortfolioToken :=
  { t with allocation := none }

/-- Forget every `allocation` field of a chain portfolio. -/
def chainClearAllocation (c : ChainPortfolio) : ChainPortfolio :=
  { c with tokens := c.tokens.map clearAllocation }

/-- Token metadata used by the concrete test environments. -/
def mkInfo (addr : String) : TokenInfo :=
  { address := addr, chainId := 1, name := "Token", symbol := "TOK", decimals := 0 }

/-- The ten chain-1 token addresses of the 11-token environment. -/
def addrsA : List String :=
  ["0xa0", "0xa1", "0xa2", "0xa3", "0xa4", "0xa5", "0xa6", "0xa7", "0xa8", "0xa9"]

/-- Environment with 11 resolvable holdings: ten tokens worth 10^7 USD each
on chain 1 and one token worth 10^9 USD on chain 137 (decimals 0, unit
price 1, balances above the dust threshold). -/
def env11 : OneInchEnv where
  fetchBalances := fun chainId _ =>
    if chainId = 1 then .ok (addrsA.map (fun a => (a, 10000000)))
    else if chainId = 137 then .ok [("0xb0", 1000000000)]
    else .error { message := "unsupported chain" }
  catalog := fun chainId =>
    if chainId = 1 then addrsA.map (fun a => (a, mkInfo a))
    else if chainId = 137 then [("0xb0", mkInfo "0xb0")]
    else []
  custom := fun _ _ => .ok []
  prices := fun chainId _ =>
    if chainId = 1 then addrsA.map (fun a => (a, (1 : ℚ)))
    else if chainId = 137 then [("0xb0", (1 : ℚ))]
    else []

/-- Environment with one holding per chain: 2·10^6 USD on chain 1 and
6·10^6 USD on chain 137. -/
def env7 : OneInchEnv where
  fetchBalances := fun chainId _ =>
    if chainId = 1 then .ok [("0xc0", 2000000)]
    else if chainId = 137 then .ok [("0xd0", 6000000)]
    else .error { message := "unsupported chain" }
  catalog := fun chainId =>
    if chainId = 1 then [("0xc0", mkInfo "0xc0")]
    else if chainId = 137 then [("0xd0", mkInfo "0xd0")]
    else []
  custom := fun _ _ => .ok []
  prices := fun chainId _ =>
    if chainId = 1 then [("0xc0", (1 : ℚ))]
    else if chainId = 137 then [("0xd0", (1 : ℚ))]
    else []

/-- Environment for the resolution of custom tokens: the bulk catalog is
empty and the custom-tokens endpoint answers every queried address with
its metadata, keyed (as the upstream does) by the individual lowercase
addresses. -/
def env6 : OneInchEnv where
  fetchBalances := fun _ _ => .ok []
  catalog := fun _ => []
  custom := fun _ addressesParam => .ok
    (if addressesParam = "0xAAA1,0xBBB2" then
      [("0xaaa1", mkInfo "0xaaa1"), ("0xbbb2", mkInfo "0xbbb2")]
     else if addressesParam = "0xAAA1" then [("0xaaa1", mkInfo "0xaaa1")]
     else if addressesParam = "0xBBB2" then [("0xbbb2", mkInfo "0xbbb2")]
     else [])
  prices := fun _ _ => []

/-- Environment in which the balance fetch of chain 3 throws and the other
chains hold one token above the dust threshold. -/
def env3w : OneInchEnv where
  fetchBalances := fun chainId _ =>
    if chainId = 3 then .error { message := "boom" }
    else .ok [("0xaa", 2000000)]
  catalog := fun _ => []
  custom := fun _ _ => .ok []
  prices := fun _ _ => []

/-- Environment in which every balance fetch throws. -/
def envFail : OneInchEnv where
  fetchBalances := fun _ _ => .error { message := "down" }
  catalog := fun _ => []
  custom := fun _ _ => .ok []
  prices := fun _ _ => []

theorem insertValDesc_perm {α : Type} (f : α → ℚ) (x : α) (l : List α) :
    (insertValDesc f x l).Perm (x :: l) := by
  induction l with
  | nil => simp [insertValDesc]
  | cons y ys ih =>
    simp only [insertValDesc]
    split
    · exact (List.Perm.cons y ih).trans (List.Perm.swap x y ys)
    · exact List.Perm.refl _

theorem sortValDesc_perm {α : Type} (f : α → ℚ) (l : List α) :
    (sortValDesc f l).Perm l := by
  induction l with
  | nil => simp [sortValDesc]
  | cons x xs ih =>
    exact (insertValDesc_perm f x (sortValDesc f xs)).trans (List.Perm.cons x ih)

theorem foldl_add_eq (f : ℚ → ℚ) (l : List ℚ) (c : ℚ) :
    l.foldl (fun s a => s + f a) c = c + (l.map f).sum := by
  induction l generalizing c with
  | nil => simp
  | cons a l ih => simp [ih, add_assoc]

theorem sum_map_div (l : List ℚ) (c : ℚ) :
    (l.map (fun x => x / c)).sum = l.sum / c := by
  induction l with
  | nil => simp
  | cons a l ih => simp [ih, add_div]

theorem sum_sq_le_sq_sum (l : List ℚ) (h : ∀ x ∈ l, 0 ≤ x) :
    (l.map (fun x => x ^ 2)).sum ≤ l.sum ^ 2 := by
  induction l with
  | nil => simp
  | cons a l ih =>
    have ha : 0 ≤ a := h a (by simp)
    have hl : ∀ x ∈ l, 0 ≤ x := fun x hx => h x (by simp [hx])
    have hs : 0 ≤ l.sum := List.sum_nonneg hl
    have := ih hl
    simp only [List.map_cons, List.sum_cons]
    nlinarith

theorem jsRound_nonneg (q : ℚ) (h : 0 ≤ q) : 0 ≤ jsRound q := by
  unfold jsRound
  exact Int.le_floor.mpr (by push_cast; linarith)

theorem jsRound_le_hundred (q : ℚ) (h : q ≤ 100) : jsRound q ≤ 100 := by
  unfold jsRound
  have : ⌊q + 1/2⌋ < 101 := Int.floor_lt.mpr (by push_cast; linarith)
  omega

/-- Claim C2: `diversificationScore` computes `HHI = Σ (pᵢ/100)²` and
returns `round((1 - HHI) * 100)`; for every allocation vector with entries
in `[0, 100]` summing to at most 100 the result lies in `[0, 100]`;
a single 100% holding scores 0; four equal 25% holdings score 75; and the
empty holding set scores 0. -/
theorem claim_c2_diversification_score :
    (∀ l : List ℚ, (∀ x ∈ l, 0 ≤ x ∧ x ≤ 100) → l.sum ≤ 100 →
      0 ≤ calculateDiversificationScore l ∧ calculateDiversificationScore l ≤ 100)
    ∧ calculateDiversificationScore [100] = 0
    ∧ calculateDiversificationScore [25, 25, 25, 25] = 75
    ∧ calculateDiversificationScore [] = 0 := by
  refine ⟨?_, ?_, ?_, ?_⟩
  · intro l h hsum
    unfold calculateDiversificationScore
    by_cases hemp : l.isEmpty
    · simp [hemp]
    · simp only [hemp, if_false]
      rw [foldl_add_eq, zero_add]
      have hnn : ∀ x ∈ l, 0 ≤ x := fun x hx => (h x hx).1
      have hhi_nonneg : 0 ≤ (l.map (fun a => (a / 100) ^ 2)).sum := by
        apply List.sum_nonneg
        intro x hx
        obtain ⟨a, _, rfl⟩ := List.mem_map.mp hx
        positivity
      have hmapmap : l.map (fun a => (a / 100) ^ 2)
          = (l.map (fun a => a / 100)).map (fun x => x ^ 2) := by
        simp [List.map_map, Function.comp]
      have hdivnn : ∀ x ∈ l.map (fun a => a / 100), 0 ≤ x := by
        intro x hx
        obtain ⟨a, ha, rfl⟩ := List.mem_map.mp hx
        have := hnn a ha
        positivity
      have hsum_nn : 0 ≤ l.sum := List.sum_nonneg hnn
      have hhi_le : (l.map (fun a => (a / 100) ^ 2)).sum ≤ 1 := by
        rw [hmapmap]
        have h1 := sum_sq_le_sq_sum (l.map (fun a => a / 100)) hdivnn
        rw [sum_map_div] at h1
        nlinarith
      constructor
      · exact jsRound_nonneg _ (by nlinarith)
      · exact jsRound_le_hundred _ (by nlinarith)
  · norm_num [calculateDiversificationScore, jsRound]
  · norm_num [calculateDiversificationScore, jsRound]
  · rfl

/-- Witness for claim C2 at the allocation vector `[30, 30, 40]`. -/
theorem claim_c2_witness :
    (∀ x ∈ [(30 : ℚ), 30, 40], 0 ≤ x ∧ x ≤ 100)
    ∧ ([(30 : ℚ), 30, 40].sum ≤ 100)
    ∧ (0 ≤ calculateDiversificationScore [30, 30, 40]
       ∧ calculateDiversificationScore [30, 30, 40] ≤ 100) := by
  have h1 : ∀ x ∈ [(30 : ℚ), 30, 40], 0 ≤ x ∧ x ≤ 100 := by norm_num
  have h2 : ([(30 : ℚ), 30, 40]).sum ≤ 100 := by norm_num
  exact ⟨h1, h2, claim_c2_diversification_score.1 _ h1 h2⟩

/-- Claim C5: `assessRisk` implements exactly the rule table of the
specification (`Low` iff `score ≥ 70` and `largest < 40`, else `Medium`
iff `score ≥ 50` or `largest < 60`, else `High`), and in particular
`assessRisk 48 60 = High`. -/
theorem claim_c5_risk_level :
    (∀ score largest : ℚ, assessRisk score largest = riskLevelSpec score largest)
    ∧ assessRisk 48 60 = RiskLevel.high := by
  refine ⟨fun score largest => rfl, ?_⟩
  norm_num [assessRisk]

/-- Claim C8: constructing the `client.ts` client without any credential
(no explicit key, no environment key, or an empty string for both) fails
at construction time with the configuration error; no request is needed
to surface it. -/
theorem claim_c8_configuration_error :
    mkOneInchClient none none = .error apiKeyNotConfiguredError
    ∧ mkOneInchClient (some "") (some "") = .error apiKeyNotConfiguredError := by
  exact ⟨rfl, rfl⟩

theorem alGet_append_of_none {α : Type} (m : List (String × α)) (k : String) (v : α)
    (h : alGet k m = none) : alGet k (m ++ [(k, v)]) = some v := by
  induction m with
  | nil => simp [alGet]
  | cons p ps ih =>
    simp only [alGet] at h ⊢
    rcases eq_or_ne p.1 k with hpk | hpk
    · simp [hpk] at h
    · simp only [hpk, if_false] at h ⊢
      exact ih h

theorem alGet_map_replace {α : Type} (m : List (String × α)) (k : String) (v : α)
    (h : (alGet k m).isSome) :
    alGet k (m.map (fun p => if p.1 = k then (k, v) else p)) = some v := by
  induction m with
  | nil => simp [alGet] at h
  | cons p ps ih =>
    rcases eq_or_ne p.1 k with hpk | hpk
    · simp [alGet, hpk]
    · simp only [alGet, hpk, if_false] at h ⊢
      exact ih h

theorem alGet_jsMapSet_self {α : Type} (m : List (String × α)) (k : String) (v : α) :
    alGet k (jsMapSet m k v) = some v := by
  unfold jsMapSet alHas
  by_cases h : (alGet k m).isSome
  · simp only [h, if_true]
    exact alGet_map_replace m k v h
  · simp only [h, Bool.false_eq_true, if_false]
    exact alGet_append_of_none m k v (by
      cases halt : alGet k m
      · rfl
      · simp [halt] at h)

theorem checkRateLimit_single (now : ℕ) (e : String) (s : RateLimitState) :
    checkRateLimit now e [(e, s)] =
      if s.resetTime < now then .ok [(e, ⟨1, now + RATE_LIMIT_WINDOW⟩)]
      else if MAX_REQUESTS_PER_MINUTE ≤ s.requests then
        .error (rateLimitError ((s.resetTime - now + 999) / 1000))
      else .ok [(e, ⟨s.requests + 1, s.resetTime⟩)] := by
  have hget : alGet e [(e, s)] = some s := by simp [alGet]
  have hset : ∀ v : RateLimitState, jsMapSet [(e, s)] e v = [(e, v)] := by
    intro v
    simp [jsMapSet, alHas, alGet]
  unfold checkRateLimit
  rw [hget]
  simp only [hset]

theorem checkRateLimit_empty (now : ℕ) (e : String) :
    checkRateLimit now e [] = .ok [(e, ⟨1, now + RATE_LIMIT_WINDOW⟩)] := by
  unfold checkRateLimit
  have hget : alGet e ([] : List (String × RateLimitState)) = none := rfl
  rw [hget]
  simp [jsMapSet, alHas, alGet]

theorem runRateLimit_filled (e : String) (R : ℕ) (ts : List ℕ) :
    ∀ (k : ℕ), 0 < k → k + ts.length ≤ MAX_REQUESTS_PER_MINUTE →
    (∀ t ∈ ts, t ≤ R) →
    runRateLimitCalls e ts [(e, ⟨k, R⟩)]
      = (List.replicate ts.length true, [(e, ⟨k + ts.length, R⟩)]) := by
  induction ts with
  | nil => intro k _ _ _; simp [runRateLimitCalls]
  | cons t ts ih =>
    intro k hk hle hmem
    have ht : t ≤ R := hmem t (by simp)
    have hcheck : checkRateLimit t e [(e, ⟨k, R⟩)] = .ok [(e, ⟨k + 1, R⟩)] := by
      rw [checkRateLimit_single]
      rw [if_neg (by simp only [RateLimitState.resetTime]; omega)]
      rw [if_neg (by
        simp only [RateLimitState.requests, MAX_REQUESTS_PER_MINUTE]
        simp only [MAX_REQUESTS_PER_MINUTE, List.length_cons] at hle
        omega)]
    have hrec := ih (k + 1) (by omega)
      (by simp only [List.length_cons] at hle; omega)
      (fun t' ht' => hmem t' (by simp [ht']))
    simp only [runRateLimitCalls, hcheck, hrec, List.length_cons, List.replicate_succ]
    have : k + 1 + ts.length = k + (ts.length + 1) := by omega
    rw [this]

/-- Claim C4: starting from an empty window, 30 calls within one window all
pass the rate-limit check; a 31st call in the same window fails with the
429 error carrying `ceil((resetTime - now) / 1000)` seconds; a `request`
issued in that state returns that error without performing a network call;
and a call after the window has elapsed reinitializes the window to count 1
and passes. -/
theorem claim_c4_rate_limiter (e : String) (t0 : ℕ) (ts : List ℕ) (tNext tReset : ℕ)
    (hlen : ts.length = 29) (hts : ∀ t ∈ ts, t ≤ t0 + RATE_LIMIT_WINDOW)
    (hNext : tNext ≤ t0 + RATE_LIMIT_WINDOW) (hReset : t0 + RATE_LIMIT_WINDOW < tReset) :
    (runRateLimitCalls e (t0 :: ts) []).1 = List.replicate 30 true
    ∧ checkRateLimit tNext e (runRateLimitCalls e (t0 :: ts) []).2
        = .error (rateLimitError ((t0 + RATE_LIMIT_WINDOW - tNext + 999) / 1000))
    ∧ (∀ (T : Type) (key : String) (fetch : FetchResult T),
        request tNext e ⟨key, (runRateLimitCalls e (t0 :: ts) []).2, none⟩ fetch
          = (.error (rateLimitError ((t0 + RATE_LIMIT_WINDOW - tNext + 999) / 1000)),
             ⟨key, (runRateLimitCalls e (t0 :: ts) []).2, none⟩, false))
    ∧ checkRateLimit tReset e (runRateLimitCalls e (t0 :: ts) []).2
        = .ok [(e, ⟨1, tReset + RATE_LIMIT_WINDOW⟩)] := by
  have hrun : runRateLimitCalls e (t0 :: ts) []
      = (List.replicate 30 true, [(e, ⟨30, t0 + RATE_LIMIT_WINDOW⟩)]) := by
    have hfill := runRateLimit_filled e (t0 + RATE_LIMIT_WINDOW) ts 1 (by omega)
      (by simp [MAX_REQUESTS_PER_MINUTE, hlen]) hts
    simp only [runRateLimitCalls, checkRateLimit_empty, hfill, hlen]
    rfl
  have hfail : checkRateLimit tNext e [(e, (⟨30, t0 + RATE_LIMIT_WINDOW⟩ : RateLimitState))]
      = .error (rateLimitError ((t0 + RATE_LIMIT_WINDOW - tNext + 999) / 1000)) := by
    rw [checkRateLimit_single]
    rw [if_neg (by simp only [RateLimitState.resetTime]; omega)]
    rw [if_pos (by simp [MAX_REQUESTS_PER_MINUTE])]
  refine ⟨by rw [hrun], by rw [hrun]; exact hfail, ?_, ?_⟩
  · intro T key fetch
    rw [hrun]
    simp only [request, hfail]
  · rw [hrun]
    rw [checkRateLimit_single]
    rw [if_pos (by simp only [RateLimitState.resetTime]; omega)]

/-- Witness for claim C4: endpoint `"balance"`, first call at time 0,
29 further calls at time 0, overflow call at time 5, reset call at
time 70000. -/
theorem claim_c4_witness :
    ((List.replicate 29 (0 : ℕ)).length = 29)
    ∧ (∀ t ∈ List.replicate 29 (0 : ℕ), t ≤ 0 + RATE_LIMIT_WINDOW)
    ∧ ((5 : ℕ) ≤ 0 + RATE_LIMIT_WINDOW)
    ∧ (0 + RATE_LIMIT_WINDOW < (70000 : ℕ))
    ∧ ((runRateLimitCalls "balance" (0 :: List.replicate 29 0) []).1
        = List.replicate 30 true
      ∧ checkRateLimit 5 "balance" (runRateLimitCalls "balance" (0 :: List.replicate 29 0) []).2
          = .error (rateLimitError ((0 + RATE_LIMIT_WINDOW - 5 + 999) / 1000))
      ∧ (∀ (T : Type) (key : String) (fetch : FetchResult T),
          request 5 "balance"
              ⟨key, (runRateLimitCalls "balance" (0 :: List.replicate 29 0) []).2, none⟩ fetch
            = (.error (rateLimitError ((0 + RATE_LIMIT_WINDOW - 5 + 999) / 1000)),
               ⟨key, (runRateLimitCalls "balance" (0 :: List.replicate 29 0) []).2, none⟩, false))
      ∧ checkRateLimit 70000 "balance" (runRateLimitCalls "balance" (0 :: List.replicate 29 0) []).2
          = .ok [("balance", ⟨1, 70000 + RATE_LIMIT_WINDOW⟩)]) := by
  refine ⟨by decide, by decide, by decide, by decide, ?_⟩
  exact claim_c4_rate_limiter "balance" 0 (List.replicate 29 0) 5 70000
    (by decide) (by decide) (by decide) (by decide)

/-- Claim C10 (implicit): the client state after a `request` does not
depend on the fetch outcome (a failing network call still consumes one
unit of the window quota), and a call that passes the rate-limit check
sets the endpoint count to the previous in-window count plus one (or to 1
for a fresh or reset window). -/
theorem claim_c10_quota (T : Type) (st : ClientState) (now : ℕ) (e : String)
    (a b : FetchResult T) :
    (request now e st a).2.1 = (request now e st b).2.1
    ∧ (∀ m, st.initError = none → checkRateLimit now e st.rateLimitState = .ok m →
        (request now e st a).2.1 = { st with rateLimitState := m }
        ∧ (alGet e m).map (·.requests)
            = some (match alGet e st.rateLimitState with
                | some s => if s.resetTime < now then 1 else s.requests + 1
                | none => 1)) := by
  constructor
  · cases hinit : st.initError with
    | some err => simp [request, hinit]
    | none =>
      cases hch : checkRateLimit now e st.rateLimitState with
      | error err => simp [request, hinit, hch]
      | ok m => cases a <;> cases b <;> simp [request, hinit, hch]
  · intro m hinit hch
    constructor
    · cases a <;> simp [request, hinit, hch]
    · unfold checkRateLimit at hch
      cases halGet : alGet e st.rateLimitState with
      | none =>
        rw [halGet] at hch
        simp only [Except.ok.injEq] at hch
        subst hch
        simp [alGet_jsMapSet_self, halGet]
      | some s =>
        simp only [halGet] at hch
        by_cases hrt : s.resetTime < now
        · rw [if_pos hrt] at hch
          simp only [Except.ok.injEq] at hch
          subst hch
          simp [alGet_jsMapSet_self, halGet, hrt]
        · rw [if_neg hrt] at hch
          by_cases hmax : MAX_REQUESTS_PER_MINUTE ≤ s.requests
          · rw [if_pos hmax] at hch
            exact absurd hch (by simp)
          · rw [if_neg hmax] at hch
            simp only [Except.ok.injEq] at hch
            subst hch
            simp [alGet_jsMapSet_self, halGet, hrt]

/-- Witness for claim C10: a client with an empty window at time 5,
compared across a succeeding and a failing fetch. -/
theorem claim_c10_witness :
    ((⟨"k", [], none⟩ : ClientState).initError = none)
    ∧ (checkRateLimit 5 "x" (⟨"k", [], none⟩ : ClientState).rateLimitState
        = .ok [("x", ⟨1, 5 + RATE_LIMIT_WINDOW⟩)])
    ∧ ((request 5 "x" (⟨"k", [], none⟩ : ClientState) (FetchResult.success ())).2.1
        = (request 5 "x" (⟨"k", [], none⟩ : ClientState)
            (FetchResult.transportError (T := Unit) "boom")).2.1)
    ∧ ((request 5 "x" (⟨"k", [], none⟩ : ClientState) (FetchResult.success ())).2.1
        = { (⟨"k", [], none⟩ : ClientState) with
              rateLimitState := [("x", ⟨1, 5 + RATE_LIMIT_WINDOW⟩)] })
    ∧ ((alGet "x" [("x", (⟨1, 5 + RATE_LIMIT_WINDOW⟩ : RateLimitState))]).map (·.requests)
        = some 1) := by
  have h0 : (⟨"k", [], none⟩ : ClientState).initError = none := rfl
  have hm : checkRateLimit 5 "x" (⟨"k", [], none⟩ : ClientState).rateLimitState
      = .ok [("x", ⟨1, 5 + RATE_LIMIT_WINDOW⟩)] := rfl
  have happ := claim_c10_quota Unit ⟨"k", [], none⟩ 5 "x"
    (FetchResult.success ()) (FetchResult.transportError "boom")
  exact ⟨h0, hm, happ.1, (happ.2 _ h0 hm).1, (happ.2 _ h0 hm).2⟩

/-- Claim C9 (amended): for both TTL caches (token catalog, 3600000 ms;
prices, 60000 ms), a lookup at time `t` for a key stored at a NONZERO
time `t0` returns the cached value without invoking the fetch whenever
`t < t0 + TTL` (a stored timestamp of 0 is falsy for the source's
`if (!timestamp) return false` and is re-fetched — see the
counterexample), and re-invokes the fetch — storing a replacement entry
on success — whenever `t > t0 + TTL`, for every `t0`. -/
theorem claim_c9_cache_ttl :
    (∀ (now t0 chainId : ℕ) (tokens0 : TokenList)
       (fetch : Except OneInchAPIError TokenList) (s : TokensState),
      alGet (tokensCacheKey chainId) s.cacheTimestamps = some t0 →
      alGet (tokensCacheKey chainId) s.tokenCache = some tokens0 →
      ((0 < t0 → (now : ℤ) < (t0 : ℤ) + TOKEN_CACHE_DURATION →
          getTokens now chainId fetch s = (tokens0, s, false))
       ∧ ((t0 : ℤ) + TOKEN_CACHE_DURATION < (now : ℤ) →
          (getTokens now chainId fetch s).2.2 = true
          ∧ ∀ tl, fetch = .ok tl → getTokens now chainId fetch s
              = (tl, ⟨jsMapSet s.tokenCache (tokensCacheKey chainId) tl,
                      jsMapSet s.cacheTimestamps (tokensCacheKey chainId) now⟩, true))))
    ∧ (∀ (now t0 chainId : ℕ) (addrs : List String) (prices0 : List (String × ℚ))
         (fetch : Except OneInchAPIError (List (String × ℚ))) (s : PricesState),
      addrs ≠ [] →
      alGet (pricesCacheKey chainId addrs) s.cacheTimestamps = some t0 →
      alGet (pricesCacheKey chainId addrs) s.priceCache = some prices0 →
      ((0 < t0 → (now : ℤ) < (t0 : ℤ) + PRICE_CACHE_DURATION →
          getTokenPrices now chainId addrs fetch s = (prices0, s, false))
       ∧ ((t0 : ℤ) + PRICE_CACHE_DURATION < (now : ℤ) →
          (getTokenPrices now chainId addrs fetch s).2.2 = true
          ∧ ∀ pl, fetch = .ok pl → getTokenPrices now chainId addrs fetch s
              = (pl, ⟨jsMapSet s.priceCache (pricesCacheKey chainId addrs) pl,
                      jsMapSet s.cacheTimestamps (pricesCacheKey chainId addrs) now⟩, true)))) := by
  constructor
  · intro now t0 chainId tokens0 fetch s h1 h2
    constructor
    · intro ht0 hlt
      have hv : tokensIsCacheValid now s (tokensCacheKey chainId) = true := by
        simp only [tokensIsCacheValid, h1]
        rw [if_neg (by omega : ¬ t0 = 0)]
        simp only [decide_eq_true_eq]
        omega
      simp [getTokens, hv, h2]
    · intro hgt
      have hv : tokensIsCacheValid now s (tokensCacheKey chainId) = false := by
        simp only [tokensIsCacheValid, h1]
        by_cases h : t0 = 0
        · rw [if_pos h]
        · rw [if_neg h]
          simp only [decide_eq_false_iff_not]
          omega
      cases fetch with
      | ok tl => exact ⟨by simp [getTokens, hv], by
          intro tl' htl'
          simp only [Except.ok.injEq] at htl'
          subst htl'
          simp [getTokens, hv]⟩
      | error err => exact ⟨by simp [getTokens, hv], by intro tl' htl'; simp at htl'⟩
  · intro now t0 chainId addrs prices0 fetch s hne h1 h2
    have hemp : addrs.isEmpty = false := by
      cases addrs with
      | nil => exact absurd rfl hne
      | cons a as => rfl
    constructor
    · intro ht0 hlt
      have hv : pricesIsCacheValid now s (pricesCacheKey chainId addrs) = true := by
        simp only [pricesIsCacheValid, h1]
        rw [if_neg (by omega : ¬ t0 = 0)]
        simp only [decide_eq_true_eq]
        omega
      simp [getTokenPrices, hemp, hv, h2]
    · intro hgt
      have hv : pricesIsCacheValid now s (pricesCacheKey chainId addrs) = false := by
        simp only [pricesIsCacheValid, h1]
        by_cases h : t0 = 0
        · rw [if_pos h]
        · rw [if_neg h]
          simp only [decide_eq_false_iff_not]
          omega
      cases fetch with
      | ok pl => exact ⟨by simp [getTokenPrices, hemp, hv], by
          intro pl' hpl'
          simp only [Except.ok.injEq] at hpl'
          subst hpl'
          simp [getTokenPrices, hemp, hv]⟩
      | error err => exact ⟨by simp [getTokenPrices, hemp, hv], by intro pl' hpl'; simp at hpl'⟩

/-- Claim C9 counterexample: an entry whose stored timestamp is 0 refutes
the claim as stated.  The cached token list is present and `t = 5` is
well within the 3600000 ms TTL, yet `getTokens` re-invokes the fetch
(flag `true`) and replaces the entry, because the source's
`if (!timestamp) return false` treats the stored 0 as falsy. -/
theorem claim_c9_counterexample :
    (alGet (tokensCacheKey 1)
        (⟨[("tokens-1", [("0xe", mkInfo "0xe")])],
          [("tokens-1", 0)]⟩ : TokensState).cacheTimestamps = some 0)
    ∧ (alGet (tokensCacheKey 1)
        (⟨[("tokens-1", [("0xe", mkInfo "0xe")])],
          [("tokens-1", 0)]⟩ : TokensState).tokenCache = some [("0xe", mkInfo "0xe")])
    ∧ ((5 : ℤ) < (0 : ℤ) + TOKEN_CACHE_DURATION)
    ∧ (getTokens 5 1 (.ok [])
        (⟨[("tokens-1", [("0xe", mkInfo "0xe")])],
          [("tokens-1", 0)]⟩ : TokensState)
        = ([], ⟨[("tokens-1", [])], [("tokens-1", 5)]⟩, true))
    ∧ (getTokens 5 1 (.ok [])
        (⟨[("tokens-1", [("0xe", mkInfo "0xe")])],
          [("tokens-1", 0)]⟩ : TokensState)
        ≠ ([("0xe", mkInfo "0xe")],
           ⟨[("tokens-1", [("0xe", mkInfo "0xe")])], [("tokens-1", 0)]⟩, false)) := by
  exact ⟨by decide, by decide, by decide, by decide, by decide⟩

/-- Witness for claim C9: a token-catalog entry stored at 1000 served from
cache at 2000, and a price entry stored at 500 refreshed at 70000. -/
theorem claim_c9_witness :
    ((0 : ℕ) < 1000)
    ∧ (alGet (tokensCacheKey 1)
        (⟨[("tokens-1", [])], [("tokens-1", 1000)]⟩ : TokensState).cacheTimestamps = some 1000)
    ∧ (alGet (tokensCacheKey 1)
        (⟨[("tokens-1", [])], [("tokens-1", 1000)]⟩ : TokensState).tokenCache = some [])
    ∧ ((2000 : ℤ) < (1000 : ℤ) + TOKEN_CACHE_DURATION)
    ∧ (getTokens 2000 1 (.ok [("0xa", mkInfo "0xa")])
        (⟨[("tokens-1", [])], [("tokens-1", 1000)]⟩ : TokensState)
        = ([], ⟨[("tokens-1", [])], [("tokens-1", 1000)]⟩, false))
    ∧ ((["0xb", "0xa"] : List String) ≠ [])
    ∧ (alGet (pricesCacheKey 137 ["0xb", "0xa"])
        (⟨[("prices-137-0xa,0xb-USD", [("0xa", (2 : ℚ))])],
          [("prices-137-0xa,0xb-USD", 500)]⟩ : PricesState).cacheTimestamps = some 500)
    ∧ (alGet (pricesCacheKey 137 ["0xb", "0xa"])
        (⟨[("prices-137-0xa,0xb-USD", [("0xa", (2 : ℚ))])],
          [("prices-137-0xa,0xb-USD", 500)]⟩ : PricesState).priceCache
        = some [("0xa", (2 : ℚ))])
    ∧ ((500 : ℤ) + PRICE_CACHE_DURATION < (70000 : ℤ))
    ∧ ((getTokenPrices 70000 137 ["0xb", "0xa"] (.ok [("0xa", (3 : ℚ))])
        (⟨[("prices-137-0xa,0xb-USD", [("0xa", (2 : ℚ))])],
          [("prices-137-0xa,0xb-USD", 500)]⟩ : PricesState)).2.2 = true) := by
  have ht1 : alGet (tokensCacheKey 1)
      (⟨[("tokens-1", [])], [("tokens-1", 1000)]⟩ : TokensState).cacheTimestamps
      = some 1000 := rfl
  have ht2 : alGet (tokensCacheKey 1)
      (⟨[("tokens-1", [])], [("tokens-1", 1000)]⟩ : TokensState).tokenCache
      = some [] := rfl
  have ht3 : (2000 : ℤ) < (1000 : ℤ) + TOKEN_CACHE_DURATION := by decide
  have hp0 : (["0xb", "0xa"] : List String) ≠ [] := by simp
  have hp1 : alGet (pricesCacheKey 137 ["0xb", "0xa"])
      (⟨[("prices-137-0xa,0xb-USD", [("0xa", (2 : ℚ))])],
        [("prices-137-0xa,0xb-USD", 500)]⟩ : PricesState).cacheTimestamps
      = some 500 := rfl
  have hp2 : alGet (pricesCacheKey 137 ["0xb", "0xa"])
      (⟨[("prices-137-0xa,0xb-USD", [("0xa", (2 : ℚ))])],
        [("prices-137-0xa,0xb-USD", 500)]⟩ : PricesState).priceCache
      = some [("0xa", (2 : ℚ))] := rfl
  have hp3 : (500 : ℤ) + PRICE_CACHE_DURATION < (70000 : ℤ) := by decide
  have ht0 : (0 : ℕ) < 1000 := by decide
  refine ⟨ht0, ht1, ht2, ht3, ?_, hp0, hp1, hp2, hp3, ?_⟩
  · exact ((claim_c9_cache_ttl.1 2000 1000 1 [] (.ok [("0xa", mkInfo "0xa")])
      ⟨[("tokens-1", [])], [("tokens-1", 1000)]⟩ ht1 ht2).1 ht0 ht3)
  · exact ((claim_c9_cache_ttl.2 70000 500 137 ["0xb", "0xa"] [("0xa", (2 : ℚ))]
      (.ok [("0xa", (3 : ℚ))])
      ⟨[("prices-137-0xa,0xb-USD", [("0xa", (2 : ℚ))])],
        [("prices-137-0xa,0xb-USD", 500)]⟩ hp0 hp1 hp2).2 hp3).1

/-- Claim C6: in `env6` the bulk catalog misses both queried addresses and
the upstream custom-token endpoint can resolve each of them individually —
yet `getMultipleTokenInfo` returns the empty map, because it passes the
comma-joined missing addresses to the single-token lookup, which indexes
the response by the joined string.  The claimed merge of every missing
address therefore does not happen. -/
theorem claim_c6_custom_token_merge :
    getMultipleTokenInfo env6 1 ["0xAAA1", "0xBBB2"] = []
    ∧ getCustomTokenInfo env6 1 "0xAAA1" = some (mkInfo "0xaaa1")
    ∧ getCustomTokenInfo env6 1 "0xBBB2" = some (mkInfo "0xbbb2")
    ∧ env6.custom 1 "0xAAA1,0xBBB2"
        = .ok [("0xaaa1", mkInfo "0xaaa1"), ("0xbbb2", mkInfo "0xbbb2")] := by
  refine ⟨by decide, by decide, by decide, rfl⟩

theorem updateChains_map_chainId (sel : List ℕ) (tv : ℚ) :
    ∀ (i : ℕ) (cs : List ChainPortfolio),
    (updateChains sel tv i cs).map (·.chainId) = cs.map (·.chainId) := by
  intro i cs
  induction cs generalizing i with
  | nil => rfl
  | cons c cs ih => simp [updateChains, ih]

theorem processChain_chainId (env : OneInchEnv) (c : ℕ) (b : List (String × ℕ)) :
    (processChainPortfolio env c b).chainId = c := rfl

theorem isEmpty_false_of_ne_nil {α : Type} {l : List α} (h : l ≠ []) :
    l.isEmpty = false := by
  cases l with
  | nil => exact absurd rfl h
  | cons a as => rfl

/-- Claim C3: `getPortfolio` never throws because a chain fetch fails.
With 4 requested chains whose third balance fetch throws (and the others
holding at least one above-dust balance), the portfolio contains exactly
the other three chains, in order; and when every chain fetch throws, the
result is the well-formed empty portfolio with total 0 and no chains. -/
theorem claim_c3_partial_failure :
    (∀ (env : OneInchEnv) (addr : String) (c1 c2 c3 c4 : ℕ)
       (b1 b2 b4 : List (String × ℕ)) (err : OneInchAPIError),
      env.fetchBalances c1 addr = .ok b1 →
      env.fetchBalances c2 addr = .ok b2 →
      env.fetchBalances c3 addr = .error err →
      env.fetchBalances c4 addr = .ok b4 →
      filterNonZeroBalances b1 ≠ [] →
      filterNonZeroBalances b2 ≠ [] →
      filterNonZeroBalances b4 ≠ [] →
      (getPortfolio env addr [c1, c2, c3, c4]).chains.map (·.chainId) = [c1, c2, c4])
    ∧ (∀ (env : OneInchEnv) (addr : String) (chainIds : List ℕ),
      (∀ c ∈ chainIds, ∃ e, env.fetchBalances c addr = .error e) →
      getPortfolio env addr chainIds = ⟨addr, 0, [], []⟩) := by
  constructor
  · intro env addr c1 c2 c3 c4 b1 b2 b4 err h1 h2 h3 h4 hf1 hf2 hf4
    simp only [filterNonZeroBalances] at hf1 hf2 hf4
    have hga : getAllNonZeroBalances env addr [c1, c2, c3, c4]
        = [(c1, filterNonZeroBalances b1), (c2, filterNonZeroBalances b2),
           (c4, filterNonZeroBalances b4)] := by
      simp [getAllNonZeroBalances, getMultiChainBalances, getBalances,
        h1, h2, h3, h4, filterNonZeroBalances, hf1, hf2, hf4]
    simp [getPortfolio, chainPortfoliosOf, hga, updateChains_map_chainId,
      processChain_chainId]
  · intro env addr chainIds hall
    have hga : getAllNonZeroBalances env addr chainIds = [] := by
      induction chainIds with
      | nil => rfl
      | cons c cs ih =>
        obtain ⟨e, he⟩ := hall c (by simp)
        have hrest := ih (fun c' hc' => hall c' (by simp [hc']))
        have hhead : getBalances env c addr = [] := by simp [getBalances, he]
        simp only [getAllNonZeroBalances, getMultiChainBalances,
          List.map_cons, List.map_map, List.filter_cons] at hrest ⊢
        rw [hhead]
        simpa [filterNonZeroBalances] using hrest
    simp [getPortfolio, chainPortfoliosOf, hga, flatTokens, getTopTokens,
      sortValDesc, updateChains]

/-- Witness for claim C3: chains 1, 2, 4 succeed with one above-dust token
each, chain 3 throws; and separately every chain of `[1, 2]` throws under
`envFail`. -/
theorem claim_c3_witness :
    (env3w.fetchBalances 1 "0xw" = .ok [("0xaa", 2000000)])
    ∧ (env3w.fetchBalances 3 "0xw" = .error { message := "boom" })
    ∧ (filterNonZeroBalances [("0xaa", 2000000)] ≠ [])
    ∧ ((getPortfolio env3w "0xw" [1, 2, 3, 4]).chains.map (·.chainId) = [1, 2, 4])
    ∧ ((∀ c ∈ [1, 2], ∃ e, envFail.fetchBalances c "0xw" = .error e)
       ∧ getPortfolio envFail "0xw" [1, 2] = ⟨"0xw", 0, [], []⟩) := by
  have h1 : env3w.fetchBalances 1 "0xw" = .ok [("0xaa", 2000000)] := rfl
  have h2 : env3w.fetchBalances 2 "0xw" = .ok [("0xaa", 2000000)] := rfl
  have h3 : env3w.fetchBalances 3 "0xw" = .error { message := "boom" } := rfl
  have h4 : env3w.fetchBalances 4 "0xw" = .ok [("0xaa", 2000000)] := rfl
  have hf : filterNonZeroBalances [("0xaa", 2000000)] ≠ [] := by decide
  have hallf : ∀ c ∈ [1, 2], ∃ e, envFail.fetchBalances c "0xw" = .error e :=
    fun c _ => ⟨{ message := "down" }, rfl⟩
  exact ⟨h1, h3, hf,
    claim_c3_partial_failure.1 env3w "0xw" 1 2 3 4 _ _ _ _ h1 h2 h3 h4 hf hf hf,
    hallf, claim_c3_partial_failure.2 envFail "0xw" [1, 2] hallf⟩

theorem updateToks_append (sel : List ℕ) (tv : ℚ) (xs : List PortfolioToken) :
    ∀ (ys : List PortfolioToken) (i : ℕ),
    updateToks sel tv i (xs ++ ys)
      = updateToks sel tv i xs ++ updateToks sel tv (i + xs.length) ys := by
  induction xs with
  | nil => intro ys i; simp [updateToks]
  | cons x xs ih =>
    intro ys i
    simp only [List.cons_append, updateToks, List.length_cons, List.append_eq]
    rw [ih ys (i + 1)]
    have : i + 1 + xs.length = i + (xs.length + 1) := by omega
    rw [this]

theorem flatTokens_updateChains (sel : List ℕ) (tv : ℚ) :
    ∀ (cs : List ChainPortfolio) (i : ℕ),
    flatTokens (updateChains sel tv i cs) = updateToks sel tv i (flatTokens cs) := by
  intro cs
  induction cs with
  | nil => intro i; rfl
  | cons c cs ih =>
    intro i
    simp only [updateChains, flatTokens, List.flatMap_cons] at ih ⊢
    rw [updateToks_append, ih]

theorem updateToks_length (sel : List ℕ) (tv : ℚ) :
    ∀ (l : List PortfolioToken) (i : ℕ), (updateToks sel tv i l).length = l.length := by
  intro l
  induction l with
  | nil => intro i; rfl
  | cons t ts ih => intro i; simp [updateToks, ih]

theorem updateToks_all (sel : List ℕ) (tv : ℚ) :
    ∀ (l : List PortfolioToken) (i : ℕ),
    (∀ j, j < l.length → (i + j) ∈ sel) →
    updateToks sel tv i l = l.map (setTopAllocation tv) := by
  intro l
  induction l with
  | nil => intro i _; rfl
  | cons t ts ih =>
    intro i h
    have h0 : i ∈ sel := by simpa using h 0 (by simp)
    have hrest : ∀ j, j < ts.length → (i + 1 + j) ∈ sel := by
      intro j hj
      have := h (j + 1) (by simp; omega)
      have heq : i + (j + 1) = i + 1 + j := by omega
      rwa [heq] at this
    simp [updateToks, h0, ih (i + 1) hrest]

theorem updateToks_get (sel : List ℕ) (tv : ℚ) :
    ∀ (l : List PortfolioToken) (i j : ℕ),
    (updateToks sel tv i l).get? j
      = (l.get? j).map (fun t => if (i + j) ∈ sel then setTopAllocation tv t else t) := by
  intro l
  induction l with
  | nil => intro i j; rfl
  | cons t ts ih =>
    intro i j
    cases j with
    | zero => simp [updateToks]
    | succ j =>
      simp only [updateToks, List.get?_cons_succ, ih (i + 1) j]
      have : i + 1 + j = i + (j + 1) := by omega
      rw [this]

theorem sum_value_map_alloc (l : List PortfolioToken) (f : PortfolioToken → Option ℚ) :
    ((l.map (fun t => { t with allocation := f t })).map (·.valueUSD)).sum
      = (l.map (·.valueUSD)).sum := by
  rw [List.map_map]
  rfl

theorem processChain_total (env : OneInchEnv) (c : ℕ) (b : List (String × ℕ)) :
    ((processChainPortfolio env c b).tokens.map (·.valueUSD)).sum
      = (processChainPortfolio env c b).totalValueUSD := by
  simp only [processChainPortfolio]
  rw [sum_value_map_alloc]
  exact ((sortValDesc_perm _ _).map _).sum_eq

theorem flatTokens_sum_value (cs : List ChainPortfolio) :
    ((flatTokens cs).map (·.valueUSD)).sum
      = (cs.map (fun c => (c.tokens.map (·.valueUSD)).sum)).sum := by
  induction cs with
  | nil => rfl
  | cons c cs ih =>
    simp only [flatTokens, List.flatMap_cons, List.map_append, List.sum_append,
      List.map_cons, List.sum_cons] at ih ⊢
    rw [ih]

theorem portfolioTotal_eq_flat_sum (env : OneInchEnv) (addr : String) (cids : List ℕ) :
    ((flatTokens (chainPortfoliosOf env addr cids)).map (·.valueUSD)).sum
      = portfolioTotal env addr cids := by
  rw [flatTokens_sum_value]
  unfold portfolioTotal chainPortfoliosOf
  rw [List.map_map, List.map_map]
  congr 1
  exact List.map_congr_left (fun cb _ => processChain_total env cb.1 cb.2)

theorem getPortfolio_chains (env : OneInchEnv) (addr : String) (cids : List ℕ) :
    (getPortfolio env addr cids).chains
      = updateChains (topSelection env addr cids) (portfolioTotal env addr cids) 0
          (chainPortfoliosOf env addr cids) := rfl

theorem getPortfolio_total (env : OneInchEnv) (addr : String) (cids : List ℕ) :
    (getPortfolio env addr cids).totalValueUSD = portfolioTotal env addr cids := rfl

theorem topSelection_fst (env : OneInchEnv) (addr : String) (cids : List ℕ) :
    topSelection env addr cids
      = ((sortValDesc (fun p => p.2.valueUSD)
            (flatTokens (chainPortfoliosOf env addr cids)).enum).take 10).map (·.1) := by
  simp only [topSelection, getTopTokens, List.map_map]
  rfl

theorem topSelection_covers (env : OneInchEnv) (addr : String) (cids : List ℕ)
    (h : (flatTokens (chainPortfoliosOf env addr cids)).length ≤ 10) :
    ∀ k, k < (flatTokens (chainPortfoliosOf env addr cids)).length →
      k ∈ topSelection env addr cids := by
  intro k hk
  rw [topSelection_fst]
  have hperm := sortValDesc_perm (fun p : ℕ × PortfolioToken => p.2.valueUSD)
    (flatTokens (chainPortfoliosOf env addr cids)).enum
  have hlen : (sortValDesc (fun p : ℕ × PortfolioToken => p.2.valueUSD)
      (flatTokens (chainPortfoliosOf env addr cids)).enum).length ≤ 10 := by
    rw [hperm.length_eq, List.enum_length]
    exact h
  rw [List.take_of_length_le hlen]
  have hmem : k ∈ (flatTokens (chainPortfoliosOf env addr cids)).enum.map (·.1) := by
    rw [List.enum_map_fst]
    exact List.mem_range.mpr hk
  exact ((hperm.map (·.1)).mem_iff).mpr hmem

theorem sum_map_value_div_mul (l : List PortfolioToken) (c d : ℚ) :
    (l.map (fun t => t.valueUSD / c * d)).sum = (l.map (·.valueUSD)).sum / c * d := by
  induction l with
  | nil => simp
  | cons t ts ih => simp [ih, add_div, add_mul]

/-- Claim C1 (amended): only the top-`min(10, n)` holdings are re-percentaged
by `getTopTokens`, and because they alias the chain holdings this also
rewrites those chain entries; hence whenever the portfolio has at most 10
holdings in total and a positive total value, every holding carries the
portfolio-relative allocation and the allocations sum to exactly 100. -/
theorem claim_c1_amended (env : OneInchEnv) (addr : String) (cids : List ℕ)
    (hlen : (flatTokens (getPortfolio env addr cids).chains).length ≤ 10)
    (hpos : 0 < (getPortfolio env addr cids).totalValueUSD) :
    sumAllocations (getPortfolio env addr cids) = 100 := by
  have hlen' : (flatTokens (chainPortfoliosOf env addr cids)).length ≤ 10 := by
    rw [getPortfolio_chains, flatTokens_updateChains, updateToks_length] at hlen
    exact hlen
  have hpos' : 0 < portfolioTotal env addr cids := by
    rw [getPortfolio_total] at hpos
    exact hpos
  have hcover : ∀ j, j < (flatTokens (chainPortfoliosOf env addr cids)).length →
      (0 + j) ∈ topSelection env addr cids := by
    intro j hj
    rw [Nat.zero_add]
    exact topSelection_covers env addr cids hlen' j hj
  unfold sumAllocations
  rw [getPortfolio_chains, flatTokens_updateChains,
    updateToks_all _ _ _ _ hcover, List.map_map]
  have hfun : ((fun t : PortfolioToken => t.allocation.getD 0)
        ∘ setTopAllocation (portfolioTotal env addr cids))
      = fun t : PortfolioToken =>
          if 0 < portfolioTotal env addr cids
          then t.valueUSD / portfolioTotal env addr cids * 100 else 0 := by
    funext t
    rfl
  rw [hfun]
  have hif : (fun t : PortfolioToken =>
        if 0 < portfolioTotal env addr cids
        then t.valueUSD / portfolioTotal env addr cids * 100 else 0)
      = fun t : PortfolioToken =>
          t.valueUSD / portfolioTotal env addr cids * 100 := by
    funext t
    rw [if_pos hpos']
  rw [hif, sum_map_value_div_mul, portfolioTotal_eq_flat_sum,
    div_self (ne_of_gt hpos'), one_mul]

theorem clear_setTopAllocation (tv : ℚ) (t : PortfolioToken) :
    clearAllocation (setTopAllocation tv t) = clearAllocation t := rfl

theorem map_clear_updateToks (sel : List ℕ) (tv : ℚ) :
    ∀ (l : List PortfolioToken) (i : ℕ),
    (updateToks sel tv i l).map clearAllocation = l.map clearAllocation := by
  intro l
  induction l with
  | nil => intro i; rfl
  | cons t ts ih =>
    intro i
    simp only [updateToks, List.map_cons, ih]
    by_cases h : i ∈ sel
    · rw [if_pos h, clear_setTopAllocation]
    · rw [if_neg h]

theorem map_chainClear_updateChains (sel : List ℕ) (tv : ℚ) :
    ∀ (cs : List ChainPortfolio) (i : ℕ),
    (updateChains sel tv i cs).map chainClearAllocation = cs.map chainClearAllocation := by
  intro cs
  induction cs with
  | nil => intro i; rfl
  | cons c cs ih =>
    intro i
    simp only [updateChains, List.map_cons, ih, List.cons.injEq, and_true]
    unfold chainClearAllocation
    rw [map_clear_updateToks]

/-- Claim C7 (amended): assembling `topTokens` inside `getPortfolio` leaves
every field of every stored chain holding unchanged EXCEPT `allocation`:
holdings outside the selected top-10 keep their chain-relative allocation,
while the selected holdings — shared by reference with the top-token
array — have their allocation overwritten with the portfolio-relative
value. -/
theorem claim_c7_amended (env : OneInchEnv) (addr : String) (cids : List ℕ) :
    ((getPortfolio env addr cids).chains.map chainClearAllocation
      = (chainPortfoliosOf env addr cids).map chainClearAllocation)
    ∧ (∀ k, k ∉ topSelection env addr cids →
        (flatTokens (getPortfolio env addr cids).chains).get? k
          = (flatTokens (chainPortfoliosOf env addr cids)).get? k)
    ∧ (∀ k, k ∈ topSelection env addr cids →
        (flatTokens (getPortfolio env addr cids).chains).get? k
          = ((flatTokens (chainPortfoliosOf env addr cids)).get? k).map
              (setTopAllocation (portfolioTotal env addr cids))) := by
  refine ⟨?_, ?_, ?_⟩
  · rw [getPortfolio_chains, map_chainClear_updateChains]
  · intro k hk
    rw [getPortfolio_chains, flatTokens_updateChains, updateToks_get]
    rw [Nat.zero_add]
    cases hflat : (flatTokens (chainPortfoliosOf env addr cids)).get? k with
    | none => rfl
    | some t => simp [if_neg hk]
  · intro k hk
    rw [getPortfolio_chains, flatTokens_updateChains, updateToks_get]
    rw [Nat.zero_add]
    cases hflat : (flatTokens (chainPortfoliosOf env addr cids)).get? k with
    | none => rfl
    | some t => simp [if_pos hk]

theorem env7_balances : getAllNonZeroBalances env7 "0xw" [1, 137]
    = [(1, [("0xc0", 2000000)]), (137, [("0xd0", 6000000)])] := by decide

theorem env7_chain1 : processChainPortfolio env7 1 [("0xc0", 2000000)]
    = { chainId := 1, chainName := "Ethereum", totalValueUSD := 2000000,
        tokens := [{ address := "0xc0", symbol := "TOK", name := "Token",
                     decimals := 0, balance := 2000000, balanceFormatted := 2000000,
                     priceUSD := 1, valueUSD := 2000000, chainId := 1,
                     chainName := "Ethereum", logoURI := none, allocation := some 100 }] } := by
  have hinfo : alGet (toLowerJs "0xc0") (getMultipleTokenInfo env7 1 ["0xc0"])
      = some (mkInfo "0xc0") := by decide
  have hprice : alGet (toLowerJs "0xc0") (env7.prices 1 ["0xc0"]) = some 1 := rfl
  have hname : chainNameOf 1 = "Ethereum" := rfl
  unfold processChainPortfolio
  simp only [List.map_cons, List.map_nil, List.filterMap_cons, List.filterMap_nil,
    hinfo, hprice, hname]
  norm_num [mkInfo, sortValDesc, insertValDesc]

theorem env7_chain137 : processChainPortfolio env7 137 [("0xd0", 6000000)]
    = { chainId := 137, chainName := "Polygon", totalValueUSD := 6000000,
        tokens := [{ address := "0xd0", symbol := "TOK", name := "Token",
                     decimals := 0, balance := 6000000, balanceFormatted := 6000000,
                     priceUSD := 1, valueUSD := 6000000, chainId := 137,
                     chainName := "Polygon", logoURI := none, allocation := some 100 }] } := by
  have hinfo : alGet (toLowerJs "0xd0") (getMultipleTokenInfo env7 137 ["0xd0"])
      = some (mkInfo "0xd0") := by decide
  have hprice : alGet (toLowerJs "0xd0") (env7.prices 137 ["0xd0"]) = some 1 := rfl
  have hname : chainNameOf 137 = "Polygon" := rfl
  unfold processChainPortfolio
  simp only [List.map_cons, List.map_nil, List.filterMap_cons, List.filterMap_nil,
    hinfo, hprice, hname]
  norm_num [mkInfo, sortValDesc, insertValDesc]

theorem env7_chains : chainPortfoliosOf env7 "0xw" [1, 137]
    = [{ chainId := 1, chainName := "Ethereum", totalValueUSD := 2000000,
         tokens := [{ address := "0xc0", symbol := "TOK", name := "Token",
                      decimals := 0, balance := 2000000, balanceFormatted := 2000000,
                      priceUSD := 1, valueUSD := 2000000, chainId := 1,
                      chainName := "Ethereum", logoURI := none, allocation := some 100 }] },
       { chainId := 137, chainName := "Polygon", totalValueUSD := 6000000,
         tokens := [{ address := "0xd0", symbol := "TOK", name := "Token",
                      decimals := 0, balance := 6000000, balanceFormatted := 6000000,
                      priceUSD := 1, valueUSD := 6000000, chainId := 137,
                      chainName := "Polygon", logoURI := none, allocation := some 100 }] }] := by
  unfold chainPortfoliosOf
  rw [env7_balances]
  simp only [List.map_cons, List.map_nil]
  rw [env7_chain1, env7_chain137]

theorem env7_total : portfolioTotal env7 "0xw" [1, 137] = 8000000 := by
  unfold portfolioTotal
  rw [env7_chains]
  norm_num

theorem env7_topSelection : topSelection env7 "0xw" [1, 137] = [1, 0] := by
  rw [topSelection_fst, env7_chains]
  norm_num [flatTokens, sortValDesc, insertValDesc, List.enum, List.enumFrom]

/-- Claim C7 counterexample: in `env7` the chain-scope processing gives
both holdings allocation 100 (each is 100% of its own chain), but after
`getPortfolio` assembles `topTokens`, the stored chain holdings carry 25
and 75 — the top-token re-percentaging mutated the shared objects, so the
chain holdings did NOT stay unchanged. -/
theorem claim_c7_counterexample :
    ((getPortfolio env7 "0xw" [1, 137]).chains.map (fun c => c.tokens.map (·.allocation)))
      = [[some 25], [some 75]]
    ∧ ((chainPortfoliosOf env7 "0xw" [1, 137]).map (fun c => c.tokens.map (·.allocation)))
      = [[some 100], [some 100]]
    ∧ (25 : ℚ) ≠ 100 := by
  refine ⟨?_, ?_, by norm_num⟩
  · rw [getPortfolio_chains, env7_topSelection, env7_total, env7_chains]
    norm_num [updateChains, updateToks, setTopAllocation]
  · rw [env7_chains]
    norm_num

/-- Witness for the amended claim C1 at `env7`: two holdings (at most 10)
and positive total, so the allocations sum to exactly 100. -/
theorem claim_c1_witness :
    ((flatTokens (getPortfolio env7 "0xw" [1, 137]).chains).length ≤ 10)
    ∧ (0 < (getPortfolio env7 "0xw" [1, 137]).totalValueUSD)
    ∧ sumAllocations (getPortfolio env7 "0xw" [1, 137]) = 100 := by
  have hl : (flatTokens (getPortfolio env7 "0xw" [1, 137]).chains).length ≤ 10 := by
    rw [getPortfolio_chains, flatTokens_updateChains, updateToks_length, env7_chains]
    norm_num [flatTokens]
  have hp : 0 < (getPortfolio env7 "0xw" [1, 137]).totalValueUSD := by
    rw [getPortfolio_total, env7_total]
    norm_num
  exact ⟨hl, hp, claim_c1_amended env7 "0xw" [1, 137] hl hp⟩

theorem env11_balances : getAllNonZeroBalances env11 "0xw" [1, 137]
    = [(1, [("0xa0", 10000000), ("0xa1", 10000000), ("0xa2", 10000000), ("0xa3", 10000000), ("0xa4", 10000000), ("0xa5", 10000000), ("0xa6", 10000000), ("0xa7", 10000000), ("0xa8", 10000000), ("0xa9", 10000000)]),
       (137, [("0xb0", 1000000000)])] := by decide

theorem env11_chain1 : processChainPortfolio env11 1 [("0xa0", 10000000), ("0xa1", 10000000), ("0xa2", 10000000), ("0xa3", 10000000), ("0xa4", 10000000), ("0xa5", 10000000), ("0xa6", 10000000), ("0xa7", 10000000), ("0xa8", 10000000), ("0xa9", 10000000)]
    = { chainId := 1, chainName := "Ethereum", totalValueUSD := 100000000,
        tokens := [{ address := "0xa0", symbol := "TOK", name := "Token",
                     decimals := 0, balance := 10000000, balanceFormatted := 10000000,
                     priceUSD := 1, valueUSD := 10000000, chainId := 1,
                     chainName := "Ethereum", logoURI := none, allocation := some 10 },
                   { address := "0xa1", symbol := "TOK", name := "Token",
                     decimals := 0, balance := 10000000, balanceFormatted := 10000000,
                     priceUSD := 1, valueUSD := 10000000, chainId := 1,
                     chainName := "Ethereum", logoURI := none, allocation := some 10 },
                   { address := "0xa2", symbol := "TOK", name := "Token",
                     decimals := 0, balance := 10000000, balanceFormatted := 10000000,
                     priceUSD := 1, valueUSD := 10000000, chainId := 1,
                     chainName := "Ethereum", logoURI := none, allocation := some 10 },
                   { address := "0xa3", symbol := "TOK", name := "Token",
                     decimals := 0, balance := 10000000, balanceFormatted := 10000000,
                     priceUSD := 1, valueUSD := 10000000, chainId := 1,
                     chainName := "Ethereum", logoURI := none, allocation := some 10 },
                   { address := "0xa4", symbol := "TOK", name := "Token",
                     decimals := 0, balance := 10000000, balanceFormatted := 10000000,
                     priceUSD := 1, valueUSD := 10000000, chainId := 1,
                     chainName := "Ethereum", logoURI := none, allocation := some 10 },
                   { address := "0xa5", symbol := "TOK", name := "Token",
                     decimals := 0, balance := 10000000, balanceFormatted := 10000000,
                     priceUSD := 1, valueUSD := 10000000, chainId := 1,
                     chainName := "Ethereum", logoURI := none, allocation := some 10 },
                   { address := "0xa6", symbol := "TOK", name := "Token",
                     decimals := 0, balance := 10000000, balanceFormatted := 10000000,
                     priceUSD := 1, valueUSD := 10000000, chainId := 1,
                     chainName := "Ethereum", logoURI := none, allocation := some 10 },
                   { address := "0xa7", symbol := "TOK", name := "Token",
                     decimals := 0, balance := 10000000, balanceFormatted := 10000000,
                     priceUSD := 1, valueUSD := 10000000, chainId := 1,
                     chainName := "Ethereum", logoURI := none, allocation := some 10 },
                   { address := "0xa8", symbol := "TOK", name := "Token",
                     decimals := 0, balance := 10000000, balanceFormatted := 10000000,
                     priceUSD := 1, valueUSD := 10000000, chainId := 1,
                     chainName := "Ethereum", logoURI := none, allocation := some 10 },
                   { address := "0xa9", symbol := "TOK", name := "Token",
                     decimals := 0, balance := 10000000, balanceFormatted := 10000000,
                     priceUSD := 1, valueUSD := 10000000, chainId := 1,
                     chainName := "Ethereum", logoURI := none, allocation := some 10 }] } := by
  have hi0 : alGet (toLowerJs "0xa0") (getMultipleTokenInfo env11 1 ["0xa0", "0xa1", "0xa2", "0xa3", "0xa4", "0xa5", "0xa6", "0xa7", "0xa8", "0xa9"])
      = some (mkInfo "0xa0") := by decide
  have hi1 : alGet (toLowerJs "0xa1") (getMultipleTokenInfo env11 1 ["0xa0", "0xa1", "0xa2", "0xa3", "0xa4", "0xa5", "0xa6", "0xa7", "0xa8", "0xa9"])
      = some (mkInfo "0xa1") := by decide
  have hi2 : alGet (toLowerJs "0xa2") (getMultipleTokenInfo env11 1 ["0xa0", "0xa1", "0xa2", "0xa3", "0xa4", "0xa5", "0xa6", "0xa7", "0xa8", "0xa9"])
      = some (mkInfo "0xa2") := by decide
  have hi3 : alGet (toLowerJs "0xa3") (getMultipleTokenInfo env11 1 ["0xa0", "0xa1", "0xa2", "0xa3", "0xa4", "0xa5", "0xa6", "0xa7", "0xa8", "0xa9"])
      = some (mkInfo "0xa3") := by decide
  have hi4 : alGet (toLowerJs "0xa4") (getMultipleTokenInfo env11 1 ["0xa0", "0xa1", "0xa2", "0xa3", "0xa4", "0xa5", "0xa6", "0xa7", "0xa8", "0xa9"])
      = some (mkInfo "0xa4") := by decide
  have hi5 : alGet (toLowerJs "0xa5") (getMultipleTokenInfo env11 1 ["0xa0", "0xa1", "0xa2", "0xa3", "0xa4", "0xa5", "0xa6", "0xa7", "0xa8", "0xa9"])
      = some (mkInfo "0xa5") := by decide
  have hi6 : alGet (toLowerJs "0xa6") (getMultipleTokenInfo env11 1 ["0xa0", "0xa1", "0xa2", "0xa3", "0xa4", "0xa5", "0xa6", "0xa7", "0xa8", "0xa9"])
      = some (mkInfo "0xa6") := by decide
  have hi7 : alGet (toLowerJs "0xa7") (getMultipleTokenInfo env11 1 ["0xa0", "0xa1", "0xa2", "0xa3", "0xa4", "0xa5", "0xa6", "0xa7", "0xa8", "0xa9"])
      = some (mkInfo "0xa7") := by decide
  have hi8 : alGet (toLowerJs "0xa8") (getMultipleTokenInfo env11 1 ["0xa0", "0xa1", "0xa2", "0xa3", "0xa4", "0xa5", "0xa6", "0xa7", "0xa8", "0xa9"])
      = some (mkInfo "0xa8") := by decide
  have hi9 : alGet (toLowerJs "0xa9") (getMultipleTokenInfo env11 1 ["0xa0", "0xa1", "0xa2", "0xa3", "0xa4", "0xa5", "0xa6", "0xa7", "0xa8", "0xa9"])
      = some (mkInfo "0xa9") := by decide
  have hp0 : alGet (toLowerJs "0xa0") (env11.prices 1 ["0xa0", "0xa1", "0xa2", "0xa3", "0xa4", "0xa5", "0xa6", "0xa7", "0xa8", "0xa9"]) = some 1 := rfl
  have hp1 : alGet (toLowerJs "0xa1") (env11.prices 1 ["0xa0", "0xa1", "0xa2", "0xa3", "0xa4", "0xa5", "0xa6", "0xa7", "0xa8", "0xa9"]) = some 1 := rfl
  have hp2 : alGet (toLowerJs "0xa2") (env11.prices 1 ["0xa0", "0xa1", "0xa2", "0xa3", "0xa4", "0xa5", "0xa6", "0xa7", "0xa8", "0xa9"]) = some 1 := rfl
  have hp3 : alGet (toLowerJs "0xa3") (env11.prices 1 ["0xa0", "0xa1", "0xa2", "0xa3", "0xa4", "0xa5", "0xa6", "0xa7", "0xa8", "0xa9"]) = some 1 := rfl
  have hp4 : alGet (toLowerJs "0xa4") (env11.prices 1 ["0xa0", "0xa1", "0xa2", "0xa3", "0xa4", "0xa5", "0xa6", "0xa7", "0xa8", "0xa9"]) = some 1 := rfl
  have hp5 : alGet (toLowerJs "0xa5") (env11.prices 1 ["0xa0", "0xa1", "0xa2", "0xa3", "0xa4", "0xa5", "0xa6", "0xa7", "0xa8", "0xa9"]) = some 1 := rfl
  have hp6 : alGet (toLowerJs "0xa6") (env11.prices 1 ["0xa0", "0xa1", "0xa2", "0xa3", "0xa4", "0xa5", "0xa6", "0xa7", "0xa8", "0xa9"]) = some 1 := rfl
  have hp7 : alGet (toLowerJs "0xa7") (env11.prices 1 ["0xa0", "0xa1", "0xa2", "0xa3", "0xa4", "0xa5", "0xa6", "0xa7", "0xa8", "0xa9"]) = some 1 := rfl
  have hp8 : alGet (toLowerJs "0xa8") (env11.prices 1 ["0xa0", "0xa1", "0xa2", "0xa3", "0xa4", "0xa5", "0xa6", "0xa7", "0xa8", "0xa9"]) = some 1 := rfl
  have hp9 : alGet (toLowerJs "0xa9") (env11.prices 1 ["0xa0", "0xa1", "0xa2", "0xa3", "0xa4", "0xa5", "0xa6", "0xa7", "0xa8", "0xa9"]) = some 1 := rfl
  have hname : chainNameOf 1 = "Ethereum" := rfl
  unfold processChainPortfolio
  simp only [List.map_cons, List.map_nil, List.filterMap_cons, List.filterMap_nil,
    hi0, hi1, hi2, hi3, hi4, hi5, hi6, hi7, hi8, hi9,
    hp0, hp1, hp2, hp3, hp4, hp5, hp6, hp7, hp8, hp9, hname]
  norm_num [mkInfo, sortValDesc, insertValDesc]

theorem env11_chain137 : processChainPortfolio env11 137 [("0xb0", 1000000000)]
    = { chainId := 137, chainName := "Polygon", totalValueUSD := 1000000000,
        tokens := [{ address := "0xb0", symbol := "TOK", name := "Token",
                     decimals := 0, balance := 1000000000, balanceFormatted := 1000000000,
                     priceUSD := 1, valueUSD := 1000000000, chainId := 137,
                     chainName := "Polygon", logoURI := none, allocation := some 100 }] } := by
  have hinfo : alGet (toLowerJs "0xb0") (getMultipleTokenInfo env11 137 ["0xb0"])
      = some (mkInfo "0xb0") := by decide
  have hprice : alGet (toLowerJs "0xb0") (env11.prices 137 ["0xb0"]) = some 1 := rfl
  have hname : chainNameOf 137 = "Polygon" := rfl
  unfold processChainPortfolio
  simp only [List.map_cons, List.map_nil, List.filterMap_cons, List.filterMap_nil,
    hinfo, hprice, hname]
  norm_num [mkInfo, sortValDesc, insertValDesc]

theorem env11_chains : chainPortfoliosOf env11 "0xw" [1, 137]
    = [{ chainId := 1, chainName := "Ethereum", totalValueUSD := 100000000,
         tokens := [{ address := "0xa0", symbol := "TOK", name := "Token", decimals := 0,
                      balance := 10000000, balanceFormatted := 10000000, priceUSD := 1,
                      valueUSD := 10000000, chainId := 1, chainName := "Ethereum",
                      logoURI := none, allocation := some 10 },
                    { address := "0xa1", symbol := "TOK", name := "Token", decimals := 0,
                      balance := 10000000, balanceFormatted := 10000000, priceUSD := 1,
                      valueUSD := 10000000, chainId := 1, chainName := "Ethereum",
                      logoURI := none, allocation := some 10 },
                    { address := "0xa2", symbol := "TOK", name := "Token", decimals := 0,
                      balance := 10000000, balanceFormatted := 10000000, priceUSD := 1,
                      valueUSD := 10000000, chainId := 1, chainName := "Ethereum",
                      logoURI := none, allocation := some 10 },
                    { address := "0xa3", symbol := "TOK", name := "Token", decimals := 0,
                      balance := 10000000, balanceFormatted := 10000000, priceUSD := 1,
                      valueUSD := 10000000, chainId := 1, chainName := "Ethereum",
                      logoURI := none, allocation := some 10 },
                    { address := "0xa4", symbol := "TOK", name := "Token", decimals := 0,
                      balance := 10000000, balanceFormatted := 10000000, priceUSD := 1,
                      valueUSD := 10000000, chainId := 1, chainName := "Ethereum",
                      logoURI := none, allocation := some 10 },
                    { address := "0xa5", symbol := "TOK", name := "Token", decimals := 0,
                      balance := 10000000, balanceFormatted := 10000000, priceUSD := 1,
                      valueUSD := 10000000, chainId := 1, chainName := "Ethereum",
                      logoURI := none, allocation := some 10 },
                    { address := "0xa6", symbol := "TOK", name := "Token", decimals := 0,
                      balance := 10000000, balanceFormatted := 10000000, priceUSD := 1,
                      valueUSD := 10000000, chainId := 1, chainName := "Ethereum",
                      logoURI := none, allocation := some 10 },
                    { address := "0xa7", symbol := "TOK", name := "Token", decimals := 0,
                      balance := 10000000, balanceFormatted := 10000000, priceUSD := 1,
                      valueUSD := 10000000, chainId := 1, chainName := "Ethereum",
                      logoURI := none, allocation := some 10 },
                    { address := "0xa8", symbol := "TOK", name := "Token", decimals := 0,
                      balance := 10000000, balanceFormatted := 10000000, priceUSD := 1,
                      valueUSD := 10000000, chainId := 1, chainName := "Ethereum",
                      logoURI := none, allocation := some 10 },
                    { address := "0xa9", symbol := "TOK", name := "Token", decimals := 0,
                      balance := 10000000, balanceFormatted := 10000000, priceUSD := 1,
                      valueUSD := 10000000, chainId := 1, chainName := "Ethereum",
                      logoURI := none, allocation := some 10 }] },
       { chainId := 137, chainName := "Polygon", totalValueUSD := 1000000000,
         tokens := [{ address := "0xb0", symbol := "TOK", name := "Token", decimals := 0,
                      balance := 1000000000, balanceFormatted := 1000000000, priceUSD := 1,
                      valueUSD := 1000000000, chainId := 137, chainName := "Polygon",
                      logoURI := none, allocation := some 100 }] }] := by
  unfold chainPortfoliosOf
  rw [env11_balances]
  simp only [List.map_cons, List.map_nil]
  rw [env11_chain1, env11_chain137]

theorem env11_total : portfolioTotal env11 "0xw" [1, 137] = 1100000000 := by
  unfold portfolioTotal
  rw [env11_chains]
  norm_num

theorem env11_topSelection : topSelection env11 "0xw" [1, 137]
    = [10, 0, 1, 2, 3, 4, 5, 6, 7, 8] := by
  rw [topSelection_fst, env11_chains]
  norm_num [flatTokens, sortValDesc, insertValDesc, List.enum, List.enumFrom]

/-- Claim C1 counterexample: `env11` yields a portfolio with positive total
and 11 holdings.  Only the top 10 are re-percentaged relative to the
portfolio total; the 11th keeps its chain-relative allocation (10, not
10/11), and the allocations over all chain holdings sum to 1200/11
(about 109.09), not 100. -/
theorem claim_c1_counterexample :
    (0 < (getPortfolio env11 "0xw" [1, 137]).totalValueUSD)
    ∧ sumAllocations (getPortfolio env11 "0xw" [1, 137]) = 1200 / 11
    ∧ sumAllocations (getPortfolio env11 "0xw" [1, 137]) ≠ 100
    ∧ ((flatTokens (getPortfolio env11 "0xw" [1, 137]).chains).get? 9).map (·.allocation)
        = some (some 10)
    ∧ (10 : ℚ) ≠ 10000000 / (getPortfolio env11 "0xw" [1, 137]).totalValueUSD * 100 := by
  have hpos : 0 < (getPortfolio env11 "0xw" [1, 137]).totalValueUSD := by
    rw [getPortfolio_total, env11_total]
    norm_num
  have hsum : sumAllocations (getPortfolio env11 "0xw" [1, 137]) = 1200 / 11 := by
    unfold sumAllocations
    rw [getPortfolio_chains, env11_topSelection, env11_total, env11_chains]
    norm_num [updateChains, updateToks, setTopAllocation, flatTokens]
  have hget : ((flatTokens (getPortfolio env11 "0xw" [1, 137]).chains).get? 9).map (·.allocation)
      = some (some 10) := by
    rw [getPortfolio_chains, env11_topSelection, env11_total, env11_chains]
    norm_num [updateChains, updateToks, setTopAllocation, flatTokens]
  refine ⟨hpos, hsum, ?_, hget, ?_⟩
  · rw [hsum]
    norm_num
  · rw [getPortfolio_total, env11_total]
    norm_num

/-- Witness for the amended claim C7: in `env11` flat index 9 (the 11th
holding by value) is outside the top selection and its stored holding is
untouched; in `env7` flat index 1 is selected and its stored chain holding
is exactly the re-percentaged token. -/
theorem claim_c7_witness :
    ((9 : ℕ) ∉ topSelection env11 "0xw" [1, 137])
    ∧ ((flatTokens (getPortfolio env11 "0xw" [1, 137]).chains).get? 9
        = (flatTokens (chainPortfoliosOf env11 "0xw" [1, 137])).get? 9)
    ∧ ((1 : ℕ) ∈ topSelection env7 "0xw" [1, 137])
    ∧ ((flatTokens (getPortfolio env7 "0xw" [1, 137]).chains).get? 1
        = ((flatTokens (chainPortfoliosOf env7 "0xw" [1, 137])).get? 1).map
            (setTopAllocation (portfolioTotal env7 "0xw" [1, 137]))) := by
  have h9 : (9 : ℕ) ∉ topSelection env11 "0xw" [1, 137] := by
    rw [env11_topSelection]
    decide
  have h1 : (1 : ℕ) ∈ topSelection env7 "0xw" [1, 137] := by
    rw [env7_topSelection]
    decide
  exact ⟨h9, (claim_c7_amended env11 "0xw" [1, 137]).2.1 9 h9,
    h1, (claim_c7_amended env7 "0xw" [1, 137]).2.2 1 h1⟩
